import Mathlib

/-!
# wbgo: the MQTT driver and the topic matcher

A shallow embedding of `driver.go` (the `Driver` that transfers data between a
`Model` and an `MQTTClient`) and of the topic matcher of `fake_mqtt.go`.

Go strings are Lean `String`s.  `strings.Split(s, "/")` and `strings.Join(parts, "/")`
are library functions; they are embedded for the one-character separator the
source uses.
-/

set_option autoImplicit false

namespace Wbgo

/-! ## Strings -/

/-- The segments of a character list cut at every occurrence of `sep`
(`strings.Split` on the characters): the result always has at least one segment,
and the empty input gives one empty segment. -/
def splitChars (sep : Char) : List Char → List (List Char)
  | [] => [[]]
  | c :: cs =>
    if c = sep then [] :: splitChars sep cs
    else
      match splitChars sep cs with
      | [] => [[c]]
      | seg :: rest => (c :: seg) :: rest

/-- Model of `strings.Split(s, sep)` for a one-character separator. -/
def Split (s : String) (sep : Char) : List String :=
  (splitChars sep s.data).map String.mk

/-! ## fake_mqtt.go: the topic matcher -/

/-- Embedding of `topicPartsMatch(pattern []string, topic []string) bool`. -/
def topicPartsMatch : List String → List String → Bool
  | [], topic => topic.length == 0
  | p :: pattern, topic =>
    if p == "#" then true
    else
      match topic with
      | [] => false
      | t :: topic => (p == "+" || p == t) && topicPartsMatch pattern topic

/-- Embedding of `topicMatch(pattern string, topic string) bool`. -/
def topicMatch (pattern : String) (topic : String) : Bool :=
  topicPartsMatch (Split pattern '/') (Split topic '/')

/-! ## driver.go: data -/

/-- Model of `strings.Join(elems, sep)`. -/
def Join : List String → String → String
  | [], _ => ""
  | [a], _ => a
  | a :: b :: rest, sep => a ++ sep ++ Join (b :: rest) sep

/-- Go's `int` is a 64-bit two's-complement integer: the value an exact result wraps to. -/
def wrapInt (x : Int) : Int :=
  (x + 2 ^ 63) % 2 ^ 64 - 2 ^ 63

/-- Model of `strconv.Itoa`: the decimal text of an integer. -/
def Itoa (i : Int) : String :=
  match i with
  | Int.ofNat n => Nat.repr n
  | Int.negSucc n => "-" ++ Nat.repr (n + 1)

/-- A `float64` as far as the driver inspects one: the outcome of the comparison
`max >= 0` and the text that `fmt.Sprintf("%v", max)` gives. -/
structure Float64 where
  geZero : Bool
  format : String
  deriving DecidableEq, Repr

/-- The text of a Go `error`. -/
abbrev GoError := String

/-- Embedding of `type MQTTMessage struct`. -/
structure MQTTMessage where
  Topic : String
  Payload : String
  QoS : Nat
  Retained : Bool
  deriving DecidableEq, Repr

/-- A device as the driver sees it through the `DeviceModel` interface: the Go value behind
the interface (`id`), what `Name()` and `Title()` return, and whether the dynamic type also
implements `ExternalDeviceModel`, which is what the type assertion
`dev.(ExternalDeviceModel)` tests. -/
structure DeviceModel where
  id : Nat
  DevName : String
  DevTitle : String
  isExternal : Bool
  deriving DecidableEq, Repr

/-- A device of static type `ExternalDeviceModel`. -/
abbrev ExternalDeviceModel := { dev : DeviceModel // dev.isExternal = true }

/-- The methods of `Driver` that are used as MQTT message handlers. -/
inductive HandlerMethod
  | handleIncomingMQTTOnValue
  | handleDeviceTitle
  | handleExternalControlValue
  | handleExternalControlType
  | handleExternalControlMax
  deriving DecidableEq, Repr

/-- A value of `type MQTTMessageHandler func(message MQTTMessage)`: a method of the driver,
or the closure `wrapMessageHandler` builds around a handler, whose body is
`drv.CallSync(func () { handler(msg) })`. -/
inductive MQTTMessageHandler
  | method (h : HandlerMethod)
  | callSync (handler : MQTTMessageHandler)
  deriving DecidableEq, Repr

/-- The calls the driver makes on its collaborators (`MQTTClient`, `Model`, the devices and
the standard logger), in the order it makes them. -/
inductive Event
  | clientStart
  | clientStop
  | clientPublish (message : MQTTMessage)
  | clientSubscribe (callback : MQTTMessageHandler) (topics : List String)
  | modelObserve
  | modelStart
  | modelStop
  | modelPoll
  | modelAddDevice (name : String)
  | devObserve (dev : DeviceModel)
  | devSendValue (dev : DeviceModel) (name value : String)
  | devSetTitle (dev : DeviceModel) (title : String)
  | devSendControlType (dev : DeviceModel) (name controlType : String)
  | devSendControlRange (dev : DeviceModel) (name : String) (max : Float64)
  | log (line : String)
  deriving DecidableEq, Repr

/-- The bound `Model`: the error its `Start()` returns, if any, and its `AddDevice` method
when the model implements `ExtendedModel` (`none` when it does not, in which case the type
assertion `drv.model.(ExtendedModel)` fails). -/
structure Model where
  Start : Option GoError
  AddDevice : Option (String → Except GoError ExternalDeviceModel)

/-- What the collaborators answer when called: the boolean `dev.SendValue(name, value)`
returns and the result of `strconv.ParseFloat(s, 64)`. -/
structure Env where
  SendValue : DeviceModel → String → String → Bool
  ParseFloat : String → Except GoError Float64

/-- Embedding of `type Driver struct`; the client is represented by the calls made on it
(`Event`), the maps by functions into `Option`. -/
structure Driver where
  model : Model
  deviceMap : String → Option DeviceModel
  nextOrder : String → Option Int
  autoPoll : Bool
  pollIntervalMs : Int
  acceptsExternalDevices : Bool
  active : Bool

/-- The outcome of running driver code: it returns `val`, or it panics; either way it
leaves a driver state and the calls made up to that point. -/
inductive Exec (α : Type)
  | done (val : α) (drv : Driver) (events : List Event)
  | panic (reason : String) (drv : Driver) (events : List Event)

/-- The calls made during an execution. -/
def Exec.events {α : Type} : Exec α → List Event
  | Exec.done _ _ events => events
  | Exec.panic _ _ events => events

/-- The driver state an execution leaves. -/
def Exec.driver {α : Type} : Exec α → Driver
  | Exec.done _ drv _ => drv
  | Exec.panic _ drv _ => drv

/-- Whether the execution panicked. -/
def Exec.panicked {α : Type} : Exec α → Bool
  | Exec.done _ _ _ => false
  | Exec.panic _ _ _ => true

/-- The messages passed to `client.Publish`, in order. -/
def publishes (events : List Event) : List MQTTMessage :=
  events.filterMap fun e =>
    match e with
    | Event.clientPublish m => some m
    | _ => none

/-- The `client.Subscribe` calls, in order. -/
def subscribes (events : List Event) : List (MQTTMessageHandler × List String) :=
  events.filterMap fun e =>
    match e with
    | Event.clientSubscribe cb topics => some (cb, topics)
    | _ => none

/-- The names `Model.AddDevice` was called with, in order. -/
def addDeviceCalls (events : List Event) : List String :=
  events.filterMap fun e =>
    match e with
    | Event.modelAddDevice name => some name
    | _ => none

/-- Whether the call is an operation on a device (`SendValue`, `SetTitle`,
`SendControlType`, `SendControlRange`). -/
def Event.isDeviceOp : Event → Bool
  | Event.devSendValue _ _ _ => true
  | Event.devSetTitle _ _ => true
  | Event.devSendControlType _ _ _ => true
  | Event.devSendControlRange _ _ _ => true
  | _ => false

/-- The operations invoked on devices, in order. -/
def deviceOps (events : List Event) : List Event :=
  events.filter Event.isDeviceOp

/-! ## driver.go: the driver -/

/-- Embedding of `NewDriver`: the initial driver, and the `model.Observe(drv)` call. -/
def NewDriver (model : Model) : Driver × List Event :=
  let drv : Driver :=
    { model := model,
      deviceMap := fun _ => none,
      nextOrder := fun _ => none,
      autoPoll := true,
      pollIntervalMs := 5000,
      acceptsExternalDevices := false,
      active := false }
  (drv, [Event.modelObserve])

/-- Embedding of `Driver.topic`. -/
def Driver.topic (_drv : Driver) (dev : DeviceModel) (sub : List String) : String :=
  Join (["/devices", dev.DevName] ++ sub) "/"

/-- Embedding of `Driver.controlTopic`. -/
def Driver.controlTopic (drv : Driver) (dev : DeviceModel) (controlName : String)
    (sub : List String) : String :=
  drv.topic dev (["controls", controlName] ++ sub)

/-- Embedding of `Driver.publish`. -/
def Driver.publish (_drv : Driver) (topic payload : String) (qos : Nat) : List Event :=
  [Event.clientPublish ⟨topic, payload, qos, true⟩]

/-- Embedding of `Driver.publishMeta`. -/
def Driver.publishMeta (drv : Driver) (topic payload : String) : List Event :=
  drv.publish topic payload 1

/-- Embedding of `Driver.publishValue`. -/
def Driver.publishValue (drv : Driver) (dev : DeviceModel) (controlName value : String) :
    List Event :=
  drv.publish (drv.controlTopic dev controlName []) value 1

/-- Embedding of `Driver.publishOnValue`. -/
def Driver.publishOnValue (drv : Driver) (dev : DeviceModel) (controlName value : String) :
    List Event :=
  [Event.clientPublish ⟨drv.controlTopic dev controlName [] ++ "/on", value, 1, false⟩]

/-- Embedding of `Driver.OnNewDevice`. -/
def Driver.OnNewDevice (drv : Driver) (dev : DeviceModel) : Driver × List Event :=
  let drv1 := { drv with deviceMap := Function.update drv.deviceMap dev.DevName (some dev) }
  let evs := if !dev.isExternal then drv1.publishMeta (drv1.topic dev ["meta", "name"]) dev.DevTitle
             else []
  (drv1, evs ++ [Event.devObserve dev])

/-- Embedding of `Driver.wrapMessageHandler`. -/
def Driver.wrapMessageHandler (_drv : Driver) (handler : MQTTMessageHandler) :
    MQTTMessageHandler :=
  MQTTMessageHandler.callSync handler

/-- Embedding of `Driver.subscribe`. -/
def Driver.subscribe (drv : Driver) (handler : MQTTMessageHandler) (topics : List String) :
    List Event :=
  [Event.clientSubscribe (drv.wrapMessageHandler handler) topics]

/-- Embedding of `Driver.OnNewControl`. -/
def Driver.OnNewControl (drv : Driver) (dev : DeviceModel) (controlName paramType value : String)
    (readOnly : Bool) (max : Float64) : Driver × List Event :=
  let devName := dev.DevName
  let nextOrder : Int :=
    match drv.nextOrder devName with
    | some n => n
    | none => 1
  let evs1 := drv.publishMeta (drv.controlTopic dev controlName ["meta", "type"]) paramType
  let evs2 := drv.publishMeta (drv.controlTopic dev controlName ["meta", "order"]) (Itoa nextOrder)
  let evs3 :=
    if max.geZero then
      drv.publishMeta (drv.controlTopic dev controlName ["meta", "max"]) max.format
    else []
  let drv1 := { drv with
    nextOrder := Function.update drv.nextOrder devName (some (wrapInt (nextOrder + 1))) }
  let evs4 := drv1.publishValue dev controlName value
  let evs5 :=
    if !readOnly then
      [Event.log ("subscribe to: " ++ drv1.controlTopic dev controlName ["on"])] ++
        drv1.subscribe (MQTTMessageHandler.method HandlerMethod.handleIncomingMQTTOnValue)
          [drv1.controlTopic dev controlName ["on"]]
    else []
  (drv1, evs1 ++ evs2 ++ evs3 ++ evs4 ++ evs5)

/-- Embedding of `Driver.OnValue`. -/
def Driver.OnValue (drv : Driver) (dev : DeviceModel) (controlName value : String) :
    Driver × List Event :=
  if dev.isExternal then (drv, drv.publishOnValue dev controlName value)
  else (drv, drv.publishValue dev controlName value)

/-- The panic of a failed single-value type assertion `drv.model.(ExtendedModel)`. -/
def assertionPanic : String :=
  "interface conversion: wbgo.Model is not wbgo.ExtendedModel: missing method AddDevice"

/-- The panic of a slice index past the end. -/
def indexPanic : String :=
  "runtime error: index out of range"

/-- Embedding of `Driver.ensureExtDevice`: the result pair is the device (`none` for the nil
interface) and the error (`none` for nil). -/
def Driver.ensureExtDevice (drv : Driver) (deviceName : String) :
    Exec (Option DeviceModel × Option GoError) :=
  match drv.deviceMap deviceName with
  | some dev =>
    if dev.isExternal then Exec.done (some dev, none) drv []
    else Exec.done (none, none) drv []
  | none =>
    if !drv.acceptsExternalDevices then
      Exec.done (none, some ("unknown device: " ++ deviceName)) drv []
    else
      match drv.model.AddDevice with
      | none => Exec.panic assertionPanic drv []
      | some addDevice =>
        match addDevice deviceName with
        | Except.error err => Exec.done (none, some err) drv [Event.modelAddDevice deviceName]
        | Except.ok dev =>
          Exec.done (some dev.val, none)
            { drv with deviceMap := Function.update drv.deviceMap deviceName (some dev.val) }
            [Event.modelAddDevice deviceName]

/-- Embedding of `Driver.handleIncomingMQTTOnValue`. -/
def Driver.handleIncomingMQTTOnValue (drv : Driver) (env : Env) (msg : MQTTMessage) :
    Exec Unit :=
  let logs := [Event.log ("handleIncomingMQTTValue() topic: " ++ msg.Topic),
    Event.log ("MSG: " ++ msg.Payload ++ "\n")]
  let parts := Split msg.Topic '/'
  match parts[2]? with
  | none => Exec.panic indexPanic drv logs
  | some deviceName =>
    match parts[4]? with
    | none => Exec.panic indexPanic drv logs
    | some controlName =>
      match drv.deviceMap deviceName with
      | none => Exec.done () drv (logs ++ [Event.log ("UNKNOWN DEVICE: " ++ deviceName)])
      | some dev =>
        if env.SendValue dev controlName msg.Payload then
          Exec.done () drv (logs ++ [Event.devSendValue dev controlName msg.Payload] ++
            drv.publishValue dev controlName msg.Payload)
        else
          Exec.done () drv (logs ++ [Event.devSendValue dev controlName msg.Payload])

/-- Embedding of `Driver.handleDeviceTitle`. -/
def Driver.handleDeviceTitle (drv : Driver) (msg : MQTTMessage) : Exec Unit :=
  match (Split msg.Topic '/')[2]? with
  | none => Exec.panic indexPanic drv []
  | some deviceName =>
    match drv.ensureExtDevice deviceName with
    | Exec.panic reason drv1 evs => Exec.panic reason drv1 evs
    | Exec.done (dev, err) drv1 evs =>
      let evs1 :=
        match err with
        | some e => [Event.log ("Not registering external device " ++ deviceName ++ ": " ++ e)]
        | none => []
      let evs2 :=
        match dev with
        | some dev => [Event.devSetTitle dev msg.Payload]
        | none => []
      Exec.done () drv1 (evs ++ evs1 ++ evs2)

/-- Embedding of `Driver.handleExternalControlValue`. -/
def Driver.handleExternalControlValue (drv : Driver) (msg : MQTTMessage) : Exec Unit :=
  let parts := Split msg.Topic '/'
  match parts[2]? with
  | none => Exec.panic indexPanic drv []
  | some deviceName =>
    match parts[4]? with
    | none => Exec.panic indexPanic drv []
    | some controlName =>
      match drv.ensureExtDevice deviceName with
      | Exec.panic reason drv1 evs => Exec.panic reason drv1 evs
      | Exec.done (dev, err) drv1 evs =>
        let evs1 :=
          match err with
          | some e => [Event.log ("Cannot register external device " ++ deviceName ++ ": " ++ e)]
          | none => []
        let evs2 :=
          match dev with
          | some dev => [Event.devSendValue dev controlName msg.Payload]
          | none => []
        Exec.done () drv1 (evs ++ evs1 ++ evs2)

/-- Embedding of `Driver.handleExternalControlType`. -/
def Driver.handleExternalControlType (drv : Driver) (msg : MQTTMessage) : Exec Unit :=
  let parts := Split msg.Topic '/'
  match parts[2]? with
  | none => Exec.panic indexPanic drv []
  | some deviceName =>
    match parts[4]? with
    | none => Exec.panic indexPanic drv []
    | some controlName =>
      match drv.ensureExtDevice deviceName with
      | Exec.panic reason drv1 evs => Exec.panic reason drv1 evs
      | Exec.done (dev, err) drv1 evs =>
        let evs1 :=
          match err with
          | some e => [Event.log ("Cannot register external device " ++ deviceName ++ ": " ++ e)]
          | none => []
        let evs2 :=
          match dev with
          | some dev => [Event.devSendControlType dev controlName msg.Payload]
          | none => []
        Exec.done () drv1 (evs ++ evs1 ++ evs2)

/-- Embedding of `Driver.handleExternalControlMax`. -/
def Driver.handleExternalControlMax (drv : Driver) (env : Env) (msg : MQTTMessage) :
    Exec Unit :=
  let parts := Split msg.Topic '/'
  match parts[2]? with
  | none => Exec.panic indexPanic drv []
  | some deviceName =>
    match parts[4]? with
    | none => Exec.panic indexPanic drv []
    | some controlName =>
      match drv.ensureExtDevice deviceName with
      | Exec.panic reason drv1 evs => Exec.panic reason drv1 evs
      | Exec.done (dev, err) drv1 evs =>
        match err with
        | some e =>
          Exec.done () drv1
            (evs ++ [Event.log ("Cannot register external device " ++ deviceName ++ ": " ++ e)])
        | none =>
          match dev with
          | none => Exec.done () drv1 evs
          | some dev =>
            match env.ParseFloat msg.Payload with
            | Except.error _ =>
              Exec.done () drv1
                (evs ++ [Event.log ("Cannot parse max value for device " ++ deviceName ++
                  " control " ++ controlName)])
            | Except.ok max =>
              Exec.done () drv1 (evs ++ [Event.devSendControlRange dev controlName max])

/-- The body of a message handler, by the method it names. -/
def Driver.handle (drv : Driver) (h : HandlerMethod) (env : Env) (msg : MQTTMessage) :
    Exec Unit :=
  match h with
  | HandlerMethod.handleIncomingMQTTOnValue => drv.handleIncomingMQTTOnValue env msg
  | HandlerMethod.handleDeviceTitle => drv.handleDeviceTitle msg
  | HandlerMethod.handleExternalControlValue => drv.handleExternalControlValue msg
  | HandlerMethod.handleExternalControlType => drv.handleExternalControlType msg
  | HandlerMethod.handleExternalControlMax => drv.handleExternalControlMax env msg

/-- Embedding of `Driver.AcceptsExternalDevices`. -/
def Driver.AcceptsExternalDevices (drv : Driver) : Bool :=
  drv.acceptsExternalDevices

/-- Embedding of `Driver.SetAcceptsExternalDevices`. -/
def Driver.SetAcceptsExternalDevices (drv : Driver) (accepts : Bool) : Exec Unit :=
  if drv.active then
    Exec.panic "trying to do SetAcceptsExternalDevices() on an active driver" drv []
  else
    Exec.done () { drv with acceptsExternalDevices := accepts } []

/-! ## Sequences of driver operations -/

/-- One call into the driver: an observer call from the model or a device, or the body of
an incoming-message handler together with the answers the collaborators give during it. -/
inductive Op
  | OnNewDevice (dev : DeviceModel)
  | OnNewControl (dev : DeviceModel) (controlName paramType value : String) (readOnly : Bool)
      (max : Float64)
  | OnValue (dev : DeviceModel) (controlName value : String)
  | handle (h : HandlerMethod) (env : Env) (msg : MQTTMessage)

/-- Run one operation. -/
def Driver.step (drv : Driver) : Op → Exec Unit
  | Op.OnNewDevice dev =>
    Exec.done () (drv.OnNewDevice dev).1 (drv.OnNewDevice dev).2
  | Op.OnNewControl dev controlName paramType value readOnly max =>
    Exec.done () (drv.OnNewControl dev controlName paramType value readOnly max).1
      (drv.OnNewControl dev controlName paramType value readOnly max).2
  | Op.OnValue dev controlName value =>
    Exec.done () (drv.OnValue dev controlName value).1 (drv.OnValue dev controlName value).2
  | Op.handle h env msg => drv.handle h env msg

/-- Run operations one after the other on the same driver; a panic ends the run. -/
def Driver.run : Driver → List Op → Exec Unit
  | drv, [] => Exec.done () drv []
  | drv, op :: ops =>
    match drv.step op with
    | Exec.panic reason drv1 evs => Exec.panic reason drv1 evs
    | Exec.done _ drv1 evs =>
      match Driver.run drv1 ops with
      | Exec.panic reason drv2 evs2 => Exec.panic reason drv2 (evs ++ evs2)
      | Exec.done _ drv2 evs2 => Exec.done () drv2 (evs ++ evs2)

/-- Whether the operation is an `OnNewControl` call for a device named `d`. -/
def Op.isNewControlFor (d : String) : Op → Bool
  | Op.OnNewControl dev _ _ _ _ _ => dev.DevName == d
  | _ => false

/-- The number of `OnNewControl` calls for a device named `d` among the operations. -/
def countNewControl (d : String) (ops : List Op) : Nat :=
  (ops.filter (Op.isNewControlFor d)).length

/-- The order counter's entry for a device name after one more `OnNewControl` call for it
(line 231 of driver.go: `drv.nextOrder[devName] = nextOrder + 1`, where `nextOrder` is the
old entry, or 1 when there is none). -/
def advanceOrder (entry : Option Int) : Option Int :=
  some (wrapInt (entry.getD 1 + 1))

/-- The payloads of the messages published on `topic`, in order. -/
def payloadsOn (topic : String) (events : List Event) : List String :=
  ((publishes events).filter fun m => m.Topic == topic).map fun m => m.Payload

/-- A local device named `therm`. -/
def therm : DeviceModel := ⟨0, "therm", "Thermometer", false⟩

/-- A local device named `relay`. -/
def relay : DeviceModel := ⟨1, "relay", "Relay", false⟩

/-- Collaborators whose `SendValue` asks for an echo and whose `ParseFloat` fails. -/
def echoEnv : Env := ⟨fun _ _ _ => true, fun _ => Except.error "invalid syntax"⟩

/-- A run on which two controls of `therm` are declared, among calls for another device, a
value change and an incoming command. -/
def sampleOps : List Op :=
  [Op.OnNewDevice therm,
   Op.OnNewControl therm "temp" "temperature" "21.5" true ⟨false, "-1"⟩,
   Op.OnNewDevice relay,
   Op.OnNewControl relay "k1" "switch" "0" false ⟨false, "-1"⟩,
   Op.OnValue therm "temp" "22",
   Op.handle HandlerMethod.handleIncomingMQTTOnValue echoEnv
     ⟨"/devices/relay/controls/k1/on", "1", 1, false⟩,
   Op.OnNewControl therm "hum" "rel_humidity" "40" true ⟨true, "100"⟩]

/-- A model that implements `ExtendedModel`: `AddDevice(name)` returns a new external
device of that name. -/
def extModel : Model :=
  ⟨none, some fun name => Except.ok ⟨⟨7, name, "", true⟩, rfl⟩⟩

/-- A model that implements `Model` only. -/
def plainModel : Model := ⟨none, none⟩

/-- A new driver on `model`, set to accept external devices. -/
def acceptingDriver (model : Model) : Driver :=
  ((NewDriver model).1.SetAcceptsExternalDevices true).driver

/-- A driver that accepts external devices and has admitted the external proxy for `therm`
on a value message. -/
def proxyDriver : Driver :=
  ((acceptingDriver extModel).handleExternalControlValue
    ⟨"/devices/therm/controls/temp", "20", 1, true⟩).driver

/-- The external proxy that `extModel` creates for the name `therm`. -/
def thermProxy : DeviceModel := ⟨7, "therm", "", true⟩


/-! ## driver.go: Start, Stop and the dispatch loop -/

/-- Embedding of the constant `EVENT_QUEUE_LEN`, the capacity of `eventCh`. -/
def EVENT_QUEUE_LEN : Nat := 100

/-- The handlers `Start` subscribes when external devices are accepted, each with its topic
pattern (lines 382-385 of driver.go). -/
def externalSubscriptions : List (HandlerMethod × String) :=
  [(HandlerMethod.handleDeviceTitle, "/devices/+/meta/name"),
   (HandlerMethod.handleExternalControlValue, "/devices/+/controls/+"),
   (HandlerMethod.handleExternalControlType, "/devices/+/controls/+/meta/type"),
   (HandlerMethod.handleExternalControlMax, "/devices/+/controls/+/meta/max")]

/-- The panic of `time.NewTicker` when the duration it is given is not positive. -/
def tickerPanic : String :=
  "non-positive interval for NewTicker"

/-- The duration `time.Duration(drv.pollIntervalMs) * time.Millisecond` in nanoseconds, as
the 64-bit multiplication gives it. -/
def Driver.pollDuration (drv : Driver) : Int :=
  wrapInt (drv.pollIntervalMs * 1000000)

/-- What a call of `Driver.Start` leaves: the error returned (`none` for nil), the driver,
the calls made, the duration of the ticker created (if one was), whether the dispatch
goroutine was launched, and the panic that ended the call (if one did). -/
structure StartResult where
  err : Option GoError
  drv : Driver
  events : List Event
  ticker : Option Int
  launched : Bool
  panic : Option String

/-- Embedding of `Driver.Start`, up to the `go` statement.  With `autoPoll` on,
`time.NewTicker` panics on a duration that is not positive, after the transport and the model
have been started and before any subscription. -/
def Driver.Start (drv : Driver) : StartResult :=
  if drv.active then ⟨none, drv, [], none, false, none⟩
  else
    let drv1 := { drv with active := true }
    match drv1.model.Start with
    | some err => ⟨some err, drv1, [Event.clientStart, Event.modelStart], none, false, none⟩
    | none =>
      if drv1.autoPoll = true ∧ drv1.pollDuration ≤ 0 then
        ⟨none, drv1, [Event.clientStart, Event.modelStart], none, false, some tickerPanic⟩
      else
      let ticker := if drv1.autoPoll then some drv1.pollDuration else none
      let subs :=
        if drv1.acceptsExternalDevices then
          drv1.subscribe (MQTTMessageHandler.method HandlerMethod.handleDeviceTitle)
              ["/devices/+/meta/name"] ++
            drv1.subscribe (MQTTMessageHandler.method HandlerMethod.handleExternalControlValue)
              ["/devices/+/controls/+"] ++
            drv1.subscribe (MQTTMessageHandler.method HandlerMethod.handleExternalControlType)
              ["/devices/+/controls/+/meta/type"] ++
            drv1.subscribe (MQTTMessageHandler.method HandlerMethod.handleExternalControlMax)
              ["/devices/+/controls/+/meta/max"]
        else []
      ⟨none, drv1, [Event.clientStart, Event.modelStart] ++ subs, ticker, true, none⟩

/-- Embedding of `Driver.Stop`: whether it goes on to send on `quit` (it returns at once on a
driver that is not active), and the line it logs. -/
def Driver.Stop (drv : Driver) : Bool × List Event :=
  if !drv.active then (false, [])
  else (true, [Event.log "----(Stop)"])

/-- A thunk sent on `eventCh`: the closure `func () { handler(msg) }` that a wrapped
message handler submits (with the answers the collaborators give while it runs), or another
thunk given to `CallSync`, described by the driver operations it performs. -/
inductive Thunk
  | handlerCall (handler : MQTTMessageHandler) (env : Env) (msg : MQTTMessage)
  | ops (ops : List Op)

/-- The driver together with its goroutines and channels: the contents of the buffered
channel `eventCh` (oldest first), the number of dispatch goroutines running, the ticker, the
number of `Stop` calls waiting to hand their request over on the unbuffered channel `quit`,
all calls made so far, and whether an unrecovered panic has ended the process.  Three fields
only record history: the thunks whose send on `eventCh` has completed, the thunks the loop has
received and run, both in order, and the number of dispatch goroutines launched so far. -/
structure System where
  drv : Driver
  eventCh : List Thunk
  loops : Nat
  ticker : Option Int
  quitWaiting : Nat
  trace : List Event
  crashed : Bool
  submitted : List Thunk
  executed : List Thunk
  launched : Nat

/-- The system around a driver that has no goroutine yet. -/
def System.init (drv : Driver) : System :=
  { drv := drv, eventCh := [], loops := 0, ticker := none, quitWaiting := 0, trace := [],
    crashed := false, submitted := [], executed := [], launched := 0 }

/-- Embedding of `Driver.CallSync`: the send `drv.eventCh <- thunk` completes when the
buffer has room (`none`: the caller is blocked). -/
def System.CallSync (sys : System) (thunk : Thunk) : Option System :=
  if sys.eventCh.length < EVENT_QUEUE_LEN then
    some { sys with eventCh := sys.eventCh ++ [thunk], submitted := sys.submitted ++ [thunk] }
  else none

/-- Record the outcome of driver code run in the system. -/
def System.absorb (sys : System) (r : Exec Unit) : System :=
  { sys with drv := r.driver, trace := sys.trace ++ r.events, crashed := r.panicked }

/-- Calling a value of type `MQTTMessageHandler` on a message: a method of the driver runs
its body at once, in the caller; a handler wrapped by `wrapMessageHandler` only submits the
thunk `func () { handler(msg) }` through `CallSync`. -/
def System.invoke (sys : System) (cb : MQTTMessageHandler) (env : Env) (msg : MQTTMessage) :
    Option System :=
  match cb with
  | MQTTMessageHandler.method h => some (sys.absorb (sys.drv.handle h env msg))
  | MQTTMessageHandler.callSync handler => sys.CallSync (Thunk.handlerCall handler env msg)

/-- Running a thunk, as `f()` in the dispatch loop does. -/
def System.runThunk (sys : System) : Thunk → Option System
  | Thunk.handlerCall handler env msg => sys.invoke handler env msg
  | Thunk.ops ops => some (sys.absorb (sys.drv.run ops))

/-- What can happen next: a call of `Start`, `Stop` or `CallSync` from some goroutine, the
transport calling a subscribed callback, or the dispatch loop taking one of the three cases
of its `select`. -/
inductive Action
  | start
  | stop
  | callSync (thunk : Thunk)
  | deliver (cb : MQTTMessageHandler) (env : Env) (msg : MQTTMessage)
  | loopQuit
  | loopPoll
  | loopEvent

/-- One action on the system; `none` when the action cannot take place in this state (a
blocked send, a `select` case that is not ready, a process that has crashed). -/
def System.step (sys : System) (a : Action) : Option System :=
  if sys.crashed then none
  else
    match a with
    | Action.start =>
      let r := sys.drv.Start
      some { sys with
        drv := r.drv
        trace := sys.trace ++ r.events
        crashed := r.panic.isSome
        ticker := if r.launched then r.ticker else sys.ticker
        loops := if r.launched then sys.loops + 1 else sys.loops
        launched := if r.launched then sys.launched + 1 else sys.launched }
    | Action.stop =>
      some { sys with
        trace := sys.trace ++ sys.drv.Stop.2
        quitWaiting := if sys.drv.Stop.1 then sys.quitWaiting + 1 else sys.quitWaiting }
    | Action.callSync thunk => sys.CallSync thunk
    | Action.deliver cb env msg => sys.invoke cb env msg
    | Action.loopQuit =>
      if 0 < sys.loops ∧ 0 < sys.quitWaiting then
        some { sys with
          quitWaiting := sys.quitWaiting - 1
          ticker := none
          trace := sys.trace ++
            [Event.log "Driver: stopping the client", Event.modelStop, Event.clientStop]
          loops := sys.loops - 1 }
      else none
    | Action.loopPoll =>
      if 0 < sys.loops then some { sys with trace := sys.trace ++ [Event.modelPoll] }
      else none
    | Action.loopEvent =>
      if 0 < sys.loops then
        match sys.eventCh with
        | [] => none
        | f :: rest =>
          System.runThunk { sys with eventCh := rest, executed := sys.executed ++ [f] } f
      else none

/-- A sequence of actions, each taking place in the state the one before leaves. -/
def System.run : System → List Action → Option System
  | sys, [] => some sys
  | sys, a :: rest =>
    match sys.step a with
    | none => none
    | some sys1 => System.run sys1 rest

/-- The reason of the panic, when the execution panicked. -/
def Exec.panicReason {α : Type} : Exec α → Option String
  | Exec.done _ _ _ => none
  | Exec.panic reason _ _ => some reason

/-- A model whose `Start` fails. -/
def failingModel : Model := ⟨some "model start failed", none⟩


/-- What holds of the system along every run: the thunks the loop has run, followed by those
still in `eventCh`, are the thunks submitted, in the order of submission; no more dispatch
goroutines run than were launched; and at most one was launched, on a driver that has been
active since. -/
def System.Inv (sys : System) : Prop :=
  sys.executed ++ sys.eventCh = sys.submitted ∧
    sys.loops ≤ sys.launched ∧
    (sys.launched = 0 ∨ (sys.launched = 1 ∧ sys.drv.active = true))


/-- What running a thunk does to the driver, and the calls it makes: a thunk of driver
operations runs them, the body of a handler method runs the method on the message, and the
body of a handler that is itself wrapped only submits again. -/
def Thunk.runOn (f : Thunk) (drv : Driver) : Exec Unit :=
  match f with
  | Thunk.ops operations => drv.run operations
  | Thunk.handlerCall (MQTTMessageHandler.method m) env msg => drv.handle m env msg
  | Thunk.handlerCall (MQTTMessageHandler.callSync _) _ _ => Exec.done () drv []

/-- Thunks run one after the other, each to completion, on the driver the one before
leaves; a panic ends the run. -/
def Driver.runThunks : Driver → List Thunk → Exec Unit
  | drv, [] => Exec.done () drv []
  | drv, f :: rest =>
    match f.runOn drv with
    | Exec.panic reason drv1 evs => Exec.panic reason drv1 evs
    | Exec.done _ drv1 evs =>
      match Driver.runThunks drv1 rest with
      | Exec.panic reason drv2 evs2 => Exec.panic reason drv2 (evs ++ evs2)
      | Exec.done _ drv2 evs2 => Exec.done () drv2 (evs ++ evs2)

/-- The actions that go through `eventCh`: a `CallSync`, the transport calling a wrapped
handler, and the dispatch loop taking its `eventCh` case. -/
def Action.isQueue : Action → Bool
  | Action.callSync _ => true
  | Action.deliver (MQTTMessageHandler.callSync _) _ _ => true
  | Action.loopEvent => true
  | _ => false

/-- A run that starts the driver and takes one poll tick. -/
def samplePrefix : List Action :=
  [Action.start, Action.loopPoll]

/-- A run on which the transport delivers two messages to wrapped handlers and another
goroutine submits a thunk, before and while the dispatch loop takes them up. -/
def sampleQueueActions : List Action :=
  [Action.deliver
     (MQTTMessageHandler.callSync
       (MQTTMessageHandler.method HandlerMethod.handleExternalControlValue))
     echoEnv ⟨"/devices/foo/controls/bar", "5", 1, true⟩,
   Action.callSync (Thunk.ops [Op.OnNewDevice therm]),
   Action.loopEvent,
   Action.deliver
     (MQTTMessageHandler.callSync (MQTTMessageHandler.method HandlerMethod.handleDeviceTitle))
     echoEnv ⟨"/devices/foo/meta/name", "Foo", 1, true⟩,
   Action.loopEvent]

/-- A local device whose name holds a `/`. -/
def slashLocal : DeviceModel := ⟨3, "a/b", "AB", false⟩

/-- An external-capable device of the same name. -/
def slashProxy : DeviceModel := ⟨4, "a/b", "", true⟩

/-- A driver that accepts external devices, whose registry holds `slashProxy` and then has
`slashLocal` registered over it. -/
def slashDriver : Driver :=
  (((acceptingDriver extModel).OnNewDevice slashProxy).1.OnNewDevice slashLocal).1


/-! ## Theorems -/

/-! ### The topic matcher -/

theorem topicPartsMatch_upto_hash (pattern : List String) :
    ∀ (topic : List String) (k : Nat), pattern[k]? = some "#" →
      (∀ i, i < k → pattern[i]? ≠ some "#") →
      (topicPartsMatch pattern topic = true ↔
        k ≤ topic.length ∧ ∀ (i : Nat) (p : String), i < k → pattern[i]? = some p → (p = "+" ∨ topic[i]? = some p)) := by
  induction pattern with
  | nil => intro topic k hk; simp at hk
  | cons p ps ih =>
    intro topic k hk hfirst
    cases k with
    | zero =>
      have hp : p = "#" := by simpa using hk
      subst hp
      simp [topicPartsMatch]
    | succ k =>
      have hp : p ≠ "#" := by
        have := hfirst 0 (Nat.succ_pos k)
        simpa using this
      have hk' : ps[k]? = some "#" := by simpa using hk
      have hfirst' : ∀ i, i < k → ps[i]? ≠ some "#" := by
        intro i hi
        have := hfirst (i + 1) (Nat.succ_lt_succ hi)
        simpa using this
      cases topic with
      | nil => simp [topicPartsMatch, hp]
      | cons t ts =>
        have ih' := ih ts k hk' hfirst'
        simp only [topicPartsMatch, beq_iff_eq, hp, if_false, Bool.and_eq_true, Bool.or_eq_true,
          ih', List.length_cons, Nat.succ_le_succ_iff]
        constructor
        · rintro ⟨h0, hlen, hrest⟩
          refine ⟨hlen, ?_⟩
          intro i q hi hq
          cases i with
          | zero =>
            have : p = q := by simpa using hq
            subst this
            rcases h0 with h0 | h0
            · exact Or.inl h0
            · exact Or.inr (by simp [h0])
          | succ i =>
            have hq' : ps[i]? = some q := by simpa using hq
            have := hrest i q (Nat.lt_of_succ_lt_succ hi) hq'
            simpa using this
        · rintro ⟨hlen, hall⟩
          refine ⟨?_, hlen, ?_⟩
          · have := hall 0 p (Nat.succ_pos k) (by simp)
            rcases this with h | h
            · exact Or.inl h
            · exact Or.inr (by simpa using h.symm)
          · intro i q hi hq
            have := hall (i + 1) q (Nat.succ_lt_succ hi) (by simpa using hq)
            simpa using this

theorem topicPartsMatch_no_hash (pattern : List String) :
    ∀ (topic : List String), "#" ∉ pattern →
      (topicPartsMatch pattern topic = true ↔
        pattern.length = topic.length ∧
          ∀ (i : Nat) (p : String), pattern[i]? = some p → (p = "+" ∨ topic[i]? = some p)) := by
  induction pattern with
  | nil =>
    intro topic _
    cases topic <;> simp [topicPartsMatch]
  | cons p ps ih =>
    intro topic hno
    have hp : p ≠ "#" := fun h => hno (by simp [h])
    have hps : "#" ∉ ps := fun h => hno (by simp [h])
    cases topic with
    | nil => simp [topicPartsMatch, hp]
    | cons t ts =>
      simp only [topicPartsMatch, beq_iff_eq, hp, if_false, Bool.and_eq_true, Bool.or_eq_true,
        ih ts hps, List.length_cons, Nat.succ_inj']
      constructor
      · rintro ⟨h0, hlen, hrest⟩
        refine ⟨hlen, ?_⟩
        intro i q hq
        cases i with
        | zero =>
          have : p = q := by simpa using hq
          subst this
          rcases h0 with h0 | h0
          · exact Or.inl h0
          · exact Or.inr (by simp [h0])
        | succ i =>
          have := hrest i q (by simpa using hq)
          simpa using this
      · rintro ⟨hlen, hall⟩
        refine ⟨?_, hlen, ?_⟩
        · rcases hall 0 p (by simp) with h | h
          · exact Or.inl h
          · exact Or.inr (by simpa using h.symm)
        · intro i q hq
          have := hall (i + 1) q (by simpa using hq)
          simpa using this

/-- C1: for a pattern whose first `#` segment is at position `k`, `topicMatch pattern topic`
is true exactly when the topic has at least `k` segments and each of the first `k` pattern
segments is `+` or equals the topic segment at the same position; what follows the `#` in the
pattern and what remains of the topic from position `k` on play no part. -/
theorem topicMatch_hash_at (pattern topic : String) (k : Nat)
    (hk : (Split pattern '/')[k]? = some "#")
    (hfirst : ∀ i, i < k → (Split pattern '/')[i]? ≠ some "#") :
    topicMatch pattern topic = true ↔
      k ≤ (Split topic '/').length ∧
        ∀ (i : Nat) (p : String), i < k → (Split pattern '/')[i]? = some p →
          (p = "+" ∨ (Split topic '/')[i]? = some p) :=
  topicPartsMatch_upto_hash (Split pattern '/') (Split topic '/') k hk hfirst

theorem topicMatch_hash_at_witness :
    (Split "a/+/#/z" '/')[2]? = some "#" ∧
    (∀ i, i < 2 → (Split "a/+/#/z" '/')[i]? ≠ some "#") ∧
    (topicMatch "a/+/#/z" "a/b" = true ↔
      2 ≤ (Split "a/b" '/').length ∧
        ∀ (i : Nat) (p : String), i < 2 → (Split "a/+/#/z" '/')[i]? = some p →
          (p = "+" ∨ (Split "a/b" '/')[i]? = some p)) :=
  ⟨by decide, by decide,
    topicMatch_hash_at "a/+/#/z" "a/b" 2 (by decide) (by decide)⟩

/-- C2: for a pattern none of whose segments is `#`, `topicMatch pattern topic` is true
exactly when pattern and topic split into the same number of segments and every pattern
segment is `+` or equals the topic segment at the same position. -/
theorem topicMatch_no_hash (pattern topic : String)
    (hno : "#" ∉ Split pattern '/') :
    topicMatch pattern topic = true ↔
      (Split pattern '/').length = (Split topic '/').length ∧
        ∀ (i : Nat) (p : String), (Split pattern '/')[i]? = some p →
          (p = "+" ∨ (Split topic '/')[i]? = some p) :=
  topicPartsMatch_no_hash (Split pattern '/') (Split topic '/') hno

theorem topicMatch_no_hash_witness :
    ("#" ∉ Split "a/+/c" '/' ∧
      (topicMatch "a/+/c" "a/x/c" = true ↔
        (Split "a/+/c" '/').length = (Split "a/x/c" '/').length ∧
          ∀ (i : Nat) (p : String), (Split "a/+/c" '/')[i]? = some p →
            (p = "+" ∨ (Split "a/x/c" '/')[i]? = some p))) ∧
    topicMatch "+" "a" = true ∧ topicMatch "+" "a/b" = false ∧
    topicMatch "a/+/c" "a/x/c" = true ∧ topicMatch "a/+/c" "a/x/y" = false :=
  ⟨⟨by decide, topicMatch_no_hash "a/+/c" "a/x/c" (by decide)⟩,
    by decide, by decide, by decide, by decide⟩

/-- C3 (as the code behaves): the empty topic splits into one empty segment, and
`topicMatch "#" ""` is true, since a `#` segment matches whatever the topic holds. -/
theorem topicMatch_hash_empty :
    Split "" '/' = [""] ∧ topicMatch "#" "" = true := by
  decide

/-- C3 as stated fails: `topicMatch "#" ""` is not false. -/
theorem topicMatch_hash_empty_not_false : ¬ (topicMatch "#" "" = false) := by
  decide

/-! ### Strings: splitting and the topics the driver builds -/

theorem splitChars_ne_nil (sep : Char) (l : List Char) : splitChars sep l ≠ [] := by
  induction l with
  | nil => simp [splitChars]
  | cons c cs ih =>
    unfold splitChars
    split
    · simp
    · split <;> simp

theorem splitChars_no_sep (sep : Char) (l : List Char) (h : sep ∉ l) :
    splitChars sep l = [l] := by
  induction l with
  | nil => simp [splitChars]
  | cons c cs ih =>
    have hc : c ≠ sep := fun e => h (by simp [e])
    have hcs : sep ∉ cs := fun e => h (by simp [e])
    simp [splitChars, hc, ih hcs]

theorem splitChars_append_sep (sep : Char) (a b : List Char) (h : sep ∉ a) :
    splitChars sep (a ++ sep :: b) = a :: splitChars sep b := by
  induction a with
  | nil => simp [splitChars]
  | cons c cs ih =>
    have hc : c ≠ sep := fun e => h (by simp [e])
    have hcs : sep ∉ cs := fun e => h (by simp [e])
    simp [splitChars, hc, ih hcs]

theorem controlTopic_nil (drv : Driver) (dev : DeviceModel) (c : String) :
    drv.controlTopic dev c [] = "/devices/" ++ dev.DevName ++ "/controls/" ++ c := by
  apply String.ext
  simp only [Driver.controlTopic, Driver.topic, Join, String.data_append, List.append_assoc,
    List.cons_append, List.nil_append]

theorem controlTopic_on (drv : Driver) (dev : DeviceModel) (c : String) :
    drv.controlTopic dev c ["on"] = "/devices/" ++ dev.DevName ++ "/controls/" ++ c ++ "/on" := by
  apply String.ext
  simp only [Driver.controlTopic, Driver.topic, Join, String.data_append, List.append_assoc,
    List.cons_append, List.nil_append]

theorem controlTopic_meta_type (drv : Driver) (dev : DeviceModel) (c : String) :
    drv.controlTopic dev c ["meta", "type"] =
      "/devices/" ++ dev.DevName ++ "/controls/" ++ c ++ "/meta/type" := by
  apply String.ext
  simp only [Driver.controlTopic, Driver.topic, Join, String.data_append, List.append_assoc,
    List.cons_append, List.nil_append]

theorem controlTopic_meta_order (drv : Driver) (dev : DeviceModel) (c : String) :
    drv.controlTopic dev c ["meta", "order"] =
      "/devices/" ++ dev.DevName ++ "/controls/" ++ c ++ "/meta/order" := by
  apply String.ext
  simp only [Driver.controlTopic, Driver.topic, Join, String.data_append, List.append_assoc,
    List.cons_append, List.nil_append]

theorem controlTopic_meta_max (drv : Driver) (dev : DeviceModel) (c : String) :
    drv.controlTopic dev c ["meta", "max"] =
      "/devices/" ++ dev.DevName ++ "/controls/" ++ c ++ "/meta/max" := by
  apply String.ext
  simp only [Driver.controlTopic, Driver.topic, Join, String.data_append, List.append_assoc,
    List.cons_append, List.nil_append]

theorem split_control_topic (d c : String) (hd : '/' ∉ d.data) (hc : '/' ∉ c.data) :
    Split ("/devices/" ++ d ++ "/controls/" ++ c) '/' = ["", "devices", d, "controls", c] := by
  have e : ("/devices/" ++ d ++ "/controls/" ++ c).data =
      [] ++ '/' :: ("devices".data ++ '/' :: (d.data ++ '/' :: ("controls".data ++ '/' :: c.data))) := by
    simp only [String.data_append, List.append_assoc]
    rfl
  unfold Split
  rw [e, splitChars_append_sep _ _ _ (by simp), splitChars_append_sep _ _ _ (by decide),
    splitChars_append_sep _ _ _ hd, splitChars_append_sep _ _ _ (by decide),
    splitChars_no_sep _ _ hc]
  rfl

/-! ### OnNewControl -/

theorem OnNewControl_events (drv : Driver) (dev : DeviceModel) (c ty v : String)
    (readOnly : Bool) (max : Float64) :
    (drv.OnNewControl dev c ty v readOnly max).2 =
      [Event.clientPublish
          ⟨"/devices/" ++ dev.DevName ++ "/controls/" ++ c ++ "/meta/type", ty, 1, true⟩,
        Event.clientPublish
          ⟨"/devices/" ++ dev.DevName ++ "/controls/" ++ c ++ "/meta/order",
            Itoa ((drv.nextOrder dev.DevName).getD 1), 1, true⟩] ++
      (if max.geZero = true then
        [Event.clientPublish
          ⟨"/devices/" ++ dev.DevName ++ "/controls/" ++ c ++ "/meta/max", max.format, 1, true⟩]
       else []) ++
      [Event.clientPublish ⟨"/devices/" ++ dev.DevName ++ "/controls/" ++ c, v, 1, true⟩] ++
      (if readOnly = true then []
       else
        [Event.log ("subscribe to: " ++ ("/devices/" ++ dev.DevName ++ "/controls/" ++ c ++ "/on")),
          Event.clientSubscribe
            (MQTTMessageHandler.callSync
              (MQTTMessageHandler.method HandlerMethod.handleIncomingMQTTOnValue))
            ["/devices/" ++ dev.DevName ++ "/controls/" ++ c ++ "/on"]]) := by
  have hord : (match drv.nextOrder dev.DevName with
      | some n => n
      | none => (1 : Int)) = (drv.nextOrder dev.DevName).getD 1 := by
    cases drv.nextOrder dev.DevName <;> rfl
  simp only [Driver.OnNewControl, Driver.publishMeta, Driver.publish, Driver.publishValue,
    Driver.subscribe, Driver.wrapMessageHandler, controlTopic_meta_type,
    controlTopic_meta_order, controlTopic_meta_max, controlTopic_nil, controlTopic_on, hord]
  cases readOnly <;> cases hmax : max.geZero <;> simp

theorem OnNewControl_driver (drv : Driver) (dev : DeviceModel) (c ty v : String)
    (readOnly : Bool) (max : Float64) :
    (drv.OnNewControl dev c ty v readOnly max).1 =
      { drv with
        nextOrder := Function.update drv.nextOrder dev.DevName
          (some (wrapInt ((drv.nextOrder dev.DevName).getD 1 + 1))) } := by
  have hord : (match drv.nextOrder dev.DevName with
      | some n => n
      | none => (1 : Int)) = (drv.nextOrder dev.DevName).getD 1 := by
    cases drv.nextOrder dev.DevName <;> rfl
  simp only [Driver.OnNewControl, hord]

/-- C4: `OnNewControl(dev, c, ty, v, readOnly, max)` publishes exactly, in this order:
`/devices/<name>/controls/<c>/meta/type` with payload `ty`; `.../meta/order` with the decimal
order (the counter's entry for the device name, 1 when it has none); `.../meta/max` with the
formatted maximum, if and only if `max >= 0`; `/devices/<name>/controls/<c>` with payload `v`;
each with QoS 1 and retained.  On a new driver, device `therm`, control `temp`, type
`temperature`, value `21.5` and a negative maximum give type, order `1` and value. -/
theorem OnNewControl_publishes :
    (∀ (drv : Driver) (dev : DeviceModel) (c ty v : String) (readOnly : Bool) (max : Float64),
      publishes (drv.OnNewControl dev c ty v readOnly max).2 =
        [⟨"/devices/" ++ dev.DevName ++ "/controls/" ++ c ++ "/meta/type", ty, 1, true⟩,
          ⟨"/devices/" ++ dev.DevName ++ "/controls/" ++ c ++ "/meta/order",
            Itoa ((drv.nextOrder dev.DevName).getD 1), 1, true⟩] ++
        (if max.geZero = true then
          [⟨"/devices/" ++ dev.DevName ++ "/controls/" ++ c ++ "/meta/max", max.format, 1, true⟩]
         else []) ++
        [⟨"/devices/" ++ dev.DevName ++ "/controls/" ++ c, v, 1, true⟩]) ∧
    publishes ((NewDriver ⟨none, none⟩).1.OnNewControl ⟨0, "therm", "Thermometer", false⟩
        "temp" "temperature" "21.5" true ⟨false, "-1"⟩).2 =
      [⟨"/devices/therm/controls/temp/meta/type", "temperature", 1, true⟩,
        ⟨"/devices/therm/controls/temp/meta/order", "1", 1, true⟩,
        ⟨"/devices/therm/controls/temp", "21.5", 1, true⟩] := by
  refine ⟨?_, by decide⟩
  intro drv dev c ty v readOnly max
  rw [OnNewControl_events]
  cases readOnly <;> cases hmax : max.geZero <;> simp [publishes]

/-- C7: `OnNewControl` makes exactly one `Subscribe` call when `readOnly` is false, with the
handler `handleIncomingMQTTOnValue` wrapped to run as a queued callback and the single topic
`/devices/<name>/controls/<c>/on`, and makes no `Subscribe` call when `readOnly` is true. -/
theorem OnNewControl_subscribes (drv : Driver) (dev : DeviceModel) (c ty v : String)
    (readOnly : Bool) (max : Float64) :
    subscribes (drv.OnNewControl dev c ty v readOnly max).2 =
      if readOnly = true then []
      else
        [(MQTTMessageHandler.callSync
            (MQTTMessageHandler.method HandlerMethod.handleIncomingMQTTOnValue),
          ["/devices/" ++ dev.DevName ++ "/controls/" ++ c ++ "/on"])] := by
  rw [OnNewControl_events]
  cases readOnly <;> cases hmax : max.geZero <;> simp [subscribes]

/-! ### The order counter along a run -/

theorem wrapInt_of_range (x : Int) (hlo : -(2 ^ 63) ≤ x) (hhi : x < 2 ^ 63) : wrapInt x = x := by
  unfold wrapInt
  norm_num at hlo hhi ⊢
  omega

theorem ensureExtDevice_nextOrder (drv : Driver) (d : String) :
    (drv.ensureExtDevice d).driver.nextOrder = drv.nextOrder := by
  unfold Driver.ensureExtDevice
  repeat' split
  all_goals rfl

theorem handle_nextOrder (drv : Driver) (h : HandlerMethod) (env : Env) (msg : MQTTMessage) :
    (drv.handle h env msg).driver.nextOrder = drv.nextOrder := by
  cases h
  · simp only [Driver.handle, Driver.handleIncomingMQTTOnValue]
    repeat' split
    all_goals rfl
  · simp only [Driver.handle, Driver.handleDeviceTitle]
    split
    · rfl
    · rename_i deviceName _
      have := ensureExtDevice_nextOrder drv deviceName
      cases hx : drv.ensureExtDevice deviceName <;> rw [hx] at this <;> simpa [Exec.driver] using this
  · simp only [Driver.handle, Driver.handleExternalControlValue]
    split
    · rfl
    · rename_i deviceName _
      split
      · rfl
      · have := ensureExtDevice_nextOrder drv deviceName
        cases hx : drv.ensureExtDevice deviceName <;> rw [hx] at this <;>
          simpa [Exec.driver] using this
  · simp only [Driver.handle, Driver.handleExternalControlType]
    split
    · rfl
    · rename_i deviceName _
      split
      · rfl
      · have := ensureExtDevice_nextOrder drv deviceName
        cases hx : drv.ensureExtDevice deviceName <;> rw [hx] at this <;>
          simpa [Exec.driver] using this
  · simp only [Driver.handle, Driver.handleExternalControlMax]
    split
    · rfl
    · rename_i deviceName _
      split
      · rfl
      · have := ensureExtDevice_nextOrder drv deviceName
        cases hx : drv.ensureExtDevice deviceName with
        | panic r d1 e1 =>
          rw [hx] at this
          simpa [Exec.driver] using this
        | done val d1 e1 =>
          rw [hx] at this
          simp only [Exec.driver] at this
          obtain ⟨dev, err⟩ := val
          cases err with
          | some e => simpa [Exec.driver] using this
          | none =>
            cases dev with
            | none => simpa [Exec.driver] using this
            | some dev =>
              simp only
              cases env.ParseFloat msg.Payload <;> simpa [Exec.driver] using this

theorem step_nextOrder (drv : Driver) (op : Op) (d : String) :
    (drv.step op).driver.nextOrder d =
      if Op.isNewControlFor d op = true then advanceOrder (drv.nextOrder d)
      else drv.nextOrder d := by
  cases op with
  | OnNewDevice dev => simp [Driver.step, Exec.driver, Op.isNewControlFor, Driver.OnNewDevice]
  | OnNewControl dev c ty v ro max =>
    simp only [Driver.step, Exec.driver, Op.isNewControlFor, OnNewControl_driver, beq_iff_eq]
    by_cases hd : dev.DevName = d
    · subst hd
      simp [advanceOrder]
    · have hd' : d ≠ dev.DevName := fun e => hd e.symm
      simp [hd, Function.update_noteq hd']
  | OnValue dev c v =>
    simp only [Driver.step, Exec.driver, Op.isNewControlFor, Driver.OnValue]
    split <;> simp
  | handle h env msg =>
    simp [Driver.step, Op.isNewControlFor, handle_nextOrder]

theorem run_cons_ok (drv : Driver) (op : Op) (ops : List Op)
    (h : (drv.run (op :: ops)).panicked = false) :
    (drv.step op).panicked = false ∧
      ((drv.step op).driver.run ops).panicked = false ∧
      (drv.run (op :: ops)).driver = ((drv.step op).driver.run ops).driver := by
  simp only [Driver.run] at h ⊢
  cases hs : drv.step op with
  | panic r d e => rw [hs] at h; simp [Exec.panicked] at h
  | done u d e =>
    rw [hs] at h
    simp only [Exec.driver, Exec.panicked] at h ⊢
    cases hr : d.run ops with
    | panic r d2 e2 => rw [hr] at h; simp [Exec.panicked] at h
    | done u2 d2 e2 => simp [Exec.panicked, Exec.driver]

theorem run_nextOrder (d : String) (ops : List Op) :
    ∀ (drv : Driver), (drv.run ops).panicked = false →
      (drv.run ops).driver.nextOrder d = advanceOrder^[countNewControl d ops] (drv.nextOrder d) := by
  induction ops with
  | nil => intro drv _; simp [Driver.run, Exec.driver, countNewControl]
  | cons op ops ih =>
    intro drv h
    obtain ⟨_, h2, h3⟩ := run_cons_ok drv op ops h
    rw [h3, ih _ h2, step_nextOrder]
    by_cases hop : Op.isNewControlFor d op = true
    · simp [countNewControl, List.filter_cons, hop, Function.iterate_succ_apply]
    · simp [countNewControl, List.filter_cons, hop]

theorem advanceOrder_iterate (k : Nat) :
    ∀ (entry : Option Int), 1 ≤ entry.getD 1 → entry.getD 1 + (k : Int) < 2 ^ 63 →
      (advanceOrder^[k] entry).getD 1 = entry.getD 1 + (k : Int) := by
  induction k with
  | zero => intro entry _ _; simp
  | succ k ih =>
    intro entry hlo hhi
    have hw : wrapInt (entry.getD 1 + 1) = entry.getD 1 + 1 :=
      wrapInt_of_range _ (by norm_num; omega) (by push_cast at hhi; omega)
    have hstep : (advanceOrder entry).getD 1 = entry.getD 1 + 1 := by
      simp [advanceOrder, hw]
    rw [Function.iterate_succ_apply, ih (advanceOrder entry) (by rw [hstep]; omega)
      (by rw [hstep]; push_cast at hhi; omega), hstep]
    push_cast
    omega

theorem payloadsOn_order_OnNewControl (drv : Driver) (dev : DeviceModel) (c ty v : String)
    (readOnly : Bool) (max : Float64) :
    payloadsOn ("/devices/" ++ dev.DevName ++ "/controls/" ++ c ++ "/meta/order")
        (drv.OnNewControl dev c ty v readOnly max).2 =
      [Itoa ((drv.nextOrder dev.DevName).getD 1)] := by
  have h1 : ("/devices/" ++ dev.DevName ++ "/controls/" ++ c ++ "/meta/type" ==
      "/devices/" ++ dev.DevName ++ "/controls/" ++ c ++ "/meta/order") = false := by
    rw [beq_eq_false_iff_ne, Ne, String.ext_iff]
    simp only [String.data_append, List.append_assoc, List.append_cancel_left_eq]
    decide
  have h2 : ("/devices/" ++ dev.DevName ++ "/controls/" ++ c ++ "/meta/max" ==
      "/devices/" ++ dev.DevName ++ "/controls/" ++ c ++ "/meta/order") = false := by
    rw [beq_eq_false_iff_ne, Ne, String.ext_iff]
    simp only [String.data_append, List.append_assoc, List.append_cancel_left_eq]
    decide
  have h3 : ("/devices/" ++ dev.DevName ++ "/controls/" ++ c ==
      "/devices/" ++ dev.DevName ++ "/controls/" ++ c ++ "/meta/order") = false := by
    rw [beq_eq_false_iff_ne, Ne, String.ext_iff]
    simp only [String.data_append, List.append_assoc, List.append_cancel_left_eq,
      List.self_eq_append_right]
    decide
  rw [OnNewControl_events]
  cases readOnly <;> cases hmax : max.geZero <;> simp [payloadsOn, publishes, List.filter, h1, h2, h3]

/-- C5: from a driver state whose order counter has no entry for device name `d`, after any
run of driver operations (`OnNewDevice`, `OnNewControl` for any device, `OnValue`, incoming
message handlers) that does not panic, the next `OnNewControl` call for a device named `d`,
which is the N-th one for `d` when the run holds N - 1 of them, publishes the decimal text of
N as the only payload on its control's `meta/order` topic, as long as N is below 2^63, where
Go's `int` would wrap. -/
theorem OnNewControl_order_nth (drv : Driver) (d : String) (ops : List Op)
    (dev : DeviceModel) (c ty v : String) (readOnly : Bool) (max : Float64)
    (h0 : drv.nextOrder d = none)
    (hrun : (drv.run ops).panicked = false)
    (hdev : dev.DevName = d)
    (hN : countNewControl d ops + 1 < 2 ^ 63) :
    payloadsOn ("/devices/" ++ d ++ "/controls/" ++ c ++ "/meta/order")
        ((drv.run ops).driver.OnNewControl dev c ty v readOnly max).2 =
      [Itoa ((countNewControl d ops : Int) + 1)] := by
  subst hdev
  rw [payloadsOn_order_OnNewControl, run_nextOrder _ _ _ hrun, h0]
  have hk : ((none : Option Int).getD 1) + (countNewControl dev.DevName ops : Int) < 2 ^ 63 := by
    have : ((countNewControl dev.DevName ops + 1 : Nat) : Int) < ((2 ^ 63 : Nat) : Int) :=
      Int.ofNat_lt.mpr hN
    push_cast at this
    simp only [Option.getD_none]
    omega
  rw [advanceOrder_iterate _ none (by simp) hk]
  simp only [Option.getD_none]
  rw [Int.add_comm]

theorem OnNewControl_order_nth_witness :
    (NewDriver ⟨none, none⟩).1.nextOrder "therm" = none ∧
    ((NewDriver ⟨none, none⟩).1.run sampleOps).panicked = false ∧
    therm.DevName = "therm" ∧
    countNewControl "therm" sampleOps + 1 < 2 ^ 63 ∧
    countNewControl "therm" sampleOps + 1 = 3 ∧
    Itoa 3 = "3" ∧
    payloadsOn ("/devices/" ++ "therm" ++ "/controls/" ++ "pressure" ++ "/meta/order")
        (((NewDriver ⟨none, none⟩).1.run sampleOps).driver.OnNewControl therm "pressure"
          "atmospheric_pressure" "760" true ⟨false, "-1"⟩).2 =
      [Itoa ((countNewControl "therm" sampleOps : Int) + 1)] :=
  ⟨by decide, by decide, by decide, by decide, by decide, by decide,
    OnNewControl_order_nth (NewDriver ⟨none, none⟩).1 "therm" sampleOps therm "pressure"
      "atmospheric_pressure" "760" true ⟨false, "-1"⟩ (by decide) (by decide) (by decide)
      (by decide)⟩

/-- C6 (as the code behaves): `OnNewControl` keeps no record of control names; every call
publishes the counter's entry for the device name and advances it.  When a call for
`(dev, c)` publishes order `n` (with `1 ≤ n`), and a later call for the same device name and
control follows after a run that does not panic and holds `k` further `OnNewControl` calls for
that device name, the later call publishes `n + 1 + k` on the same `meta/order` topic (while
that stays below 2^63), not `n` again. -/
theorem OnNewControl_reobserved_order (drv : Driver) (dev dev2 : DeviceModel)
    (c ty v ty2 v2 : String) (readOnly readOnly2 : Bool) (max max2 : Float64) (ops : List Op)
    (hname : dev2.DevName = dev.DevName)
    (hlo : 1 ≤ (drv.nextOrder dev.DevName).getD 1)
    (hrun : ((drv.OnNewControl dev c ty v readOnly max).1.run ops).panicked = false)
    (hhi : (drv.nextOrder dev.DevName).getD 1 + 1 + (countNewControl dev.DevName ops : Int)
      < 2 ^ 63) :
    payloadsOn ("/devices/" ++ dev.DevName ++ "/controls/" ++ c ++ "/meta/order")
        (drv.OnNewControl dev c ty v readOnly max).2 =
      [Itoa ((drv.nextOrder dev.DevName).getD 1)] ∧
    payloadsOn ("/devices/" ++ dev.DevName ++ "/controls/" ++ c ++ "/meta/order")
        (((drv.OnNewControl dev c ty v readOnly max).1.run ops).driver.OnNewControl dev2 c ty2 v2
          readOnly2 max2).2 =
      [Itoa ((drv.nextOrder dev.DevName).getD 1 + 1 + (countNewControl dev.DevName ops : Int))] := by
  refine ⟨payloadsOn_order_OnNewControl _ _ _ _ _ _ _, ?_⟩
  have hw : wrapInt ((drv.nextOrder dev.DevName).getD 1 + 1) =
      (drv.nextOrder dev.DevName).getD 1 + 1 :=
    wrapInt_of_range _ (by norm_num; omega) (by omega)
  have hfirst : ((drv.OnNewControl dev c ty v readOnly max).1.nextOrder dev.DevName).getD 1 =
      (drv.nextOrder dev.DevName).getD 1 + 1 := by
    rw [OnNewControl_driver]
    simp [hw]
  have key := payloadsOn_order_OnNewControl
    ((drv.OnNewControl dev c ty v readOnly max).1.run ops).driver dev2 c ty2 v2 readOnly2 max2
  rw [hname] at key
  rw [key, run_nextOrder _ _ _ hrun,
    advanceOrder_iterate _ _ (by rw [hfirst]; omega) (by rw [hfirst]; exact hhi), hfirst]

theorem OnNewControl_reobserved_order_witness :
    therm.DevName = therm.DevName ∧
    1 ≤ ((NewDriver ⟨none, none⟩).1.nextOrder therm.DevName).getD 1 ∧
    (((NewDriver ⟨none, none⟩).1.OnNewControl therm "temp" "temperature" "21.5" true
      ⟨false, "-1"⟩).1.run []).panicked = false ∧
    ((NewDriver ⟨none, none⟩).1.nextOrder therm.DevName).getD 1 + 1 +
      (countNewControl therm.DevName [] : Int) < 2 ^ 63 ∧
    (payloadsOn ("/devices/" ++ therm.DevName ++ "/controls/" ++ "temp" ++ "/meta/order")
        ((NewDriver ⟨none, none⟩).1.OnNewControl therm "temp" "temperature" "21.5" true
          ⟨false, "-1"⟩).2 =
      [Itoa (((NewDriver ⟨none, none⟩).1.nextOrder therm.DevName).getD 1)] ∧
    payloadsOn ("/devices/" ++ therm.DevName ++ "/controls/" ++ "temp" ++ "/meta/order")
        ((((NewDriver ⟨none, none⟩).1.OnNewControl therm "temp" "temperature" "21.5" true
          ⟨false, "-1"⟩).1.run []).driver.OnNewControl therm "temp" "temperature" "21.5" true
          ⟨false, "-1"⟩).2 =
      [Itoa (((NewDriver ⟨none, none⟩).1.nextOrder therm.DevName).getD 1 + 1 +
        (countNewControl therm.DevName [] : Int))]) :=
  ⟨rfl, by decide, by decide, by decide,
    OnNewControl_reobserved_order (NewDriver ⟨none, none⟩).1 therm therm "temp" "temperature"
      "21.5" "temperature" "21.5" true true ⟨false, "-1"⟩ ⟨false, "-1"⟩ [] rfl (by decide)
      (by decide) (by decide)⟩

/-- C6 as stated fails: on a new driver, `OnNewControl` for device `therm`, control `temp`
publishes order `1`, and the same call made again publishes order `2`. -/
theorem OnNewControl_reobserved_order_differs :
    payloadsOn "/devices/therm/controls/temp/meta/order"
        ((NewDriver ⟨none, none⟩).1.OnNewControl therm "temp" "temperature" "21.5" true
          ⟨false, "-1"⟩).2 = ["1"] ∧
    payloadsOn "/devices/therm/controls/temp/meta/order"
        (((NewDriver ⟨none, none⟩).1.OnNewControl therm "temp" "temperature" "21.5" true
          ⟨false, "-1"⟩).1.OnNewControl therm "temp" "temperature" "21.5" true
          ⟨false, "-1"⟩).2 = ["2"] ∧
    ¬ (payloadsOn "/devices/therm/controls/temp/meta/order"
        (((NewDriver ⟨none, none⟩).1.OnNewControl therm "temp" "temperature" "21.5" true
          ⟨false, "-1"⟩).1.OnNewControl therm "temp" "temperature" "21.5" true
          ⟨false, "-1"⟩).2 =
      payloadsOn "/devices/therm/controls/temp/meta/order"
        ((NewDriver ⟨none, none⟩).1.OnNewControl therm "temp" "temperature" "21.5" true
          ⟨false, "-1"⟩).2) := by
  decide

/-! ### Admission of external devices -/

/-- C8: with `acceptsExternalDevices` true, `d` not in the registry and the model's
`AddDevice(d)` returning device `e`, handling a message on `/devices/<d>/controls/<c>`
(`d` and `c` without `/`) with payload `p` returns after calling `AddDevice` once, with `d`,
and then `e.SendValue(c, p)` once, and nothing else: the registry is the old one with `d`
mapped to `e`, and nothing is published. -/
theorem handleExternalControlValue_admits (drv : Driver) (d c p : String) (qos : Nat)
    (retained : Bool) (addDevice : String → Except GoError ExternalDeviceModel)
    (e : ExternalDeviceModel)
    (hd : '/' ∉ d.data) (hc : '/' ∉ c.data)
    (hacc : drv.acceptsExternalDevices = true)
    (hnew : drv.deviceMap d = none)
    (hmodel : drv.model.AddDevice = some addDevice)
    (hadd : addDevice d = Except.ok e) :
    drv.handleExternalControlValue ⟨"/devices/" ++ d ++ "/controls/" ++ c, p, qos, retained⟩ =
        Exec.done ()
          { drv with deviceMap := Function.update drv.deviceMap d (some e.val) }
          [Event.modelAddDevice d, Event.devSendValue e.val c p] ∧
      publishes (drv.handleExternalControlValue
        ⟨"/devices/" ++ d ++ "/controls/" ++ c, p, qos, retained⟩).events = [] := by
  have hens : drv.ensureExtDevice d =
      Exec.done (some e.val, none)
        { drv with deviceMap := Function.update drv.deviceMap d (some e.val) }
        [Event.modelAddDevice d] := by
    simp [Driver.ensureExtDevice, hnew, hacc, hmodel, hadd]
  have hmain : drv.handleExternalControlValue
      ⟨"/devices/" ++ d ++ "/controls/" ++ c, p, qos, retained⟩ =
        Exec.done ()
          { drv with deviceMap := Function.update drv.deviceMap d (some e.val) }
          [Event.modelAddDevice d, Event.devSendValue e.val c p] := by
    simp [Driver.handleExternalControlValue, split_control_topic d c hd hc, hens]
  refine ⟨hmain, ?_⟩
  rw [hmain]
  simp [Exec.events, publishes]

theorem handleExternalControlValue_admits_witness :
    '/' ∉ "foo".data ∧ '/' ∉ "bar".data ∧
    (acceptingDriver extModel).acceptsExternalDevices = true ∧
    (acceptingDriver extModel).deviceMap "foo" = none ∧
    ((acceptingDriver extModel).handleExternalControlValue
        ⟨"/devices/" ++ "foo" ++ "/controls/" ++ "bar", "5", 0, true⟩ =
        Exec.done ()
          { acceptingDriver extModel with
            deviceMap := Function.update (acceptingDriver extModel).deviceMap "foo"
              (some (⟨⟨7, "foo", "", true⟩, rfl⟩ : ExternalDeviceModel).val) }
          [Event.modelAddDevice "foo",
            Event.devSendValue (⟨⟨7, "foo", "", true⟩, rfl⟩ : ExternalDeviceModel).val "bar" "5"] ∧
      publishes ((acceptingDriver extModel).handleExternalControlValue
        ⟨"/devices/" ++ "foo" ++ "/controls/" ++ "bar", "5", 0, true⟩).events = []) :=
  ⟨by decide, by decide, by decide, by decide,
    handleExternalControlValue_admits (acceptingDriver extModel) "foo" "bar" "5" 0 true
      (fun name => Except.ok ⟨⟨7, name, "", true⟩, rfl⟩) ⟨⟨7, "foo", "", true⟩, rfl⟩
      (by decide) (by decide) (by decide) (by decide) rfl rfl⟩

/-- C9: with `acceptsExternalDevices` false and the device name `d` that the topic carries at
segment 2 absent from the registry, `ensureExtDevice` returns the error `unknown device: <d>`,
and each of the four handlers (device title; control value, type and max, for a topic that
also has a segment 4) returns leaving the driver as it was, registry and order counter
included, after writing one log line and nothing else: no `AddDevice` call, no operation on
a device, no publish. -/
theorem unknown_device_rejected (drv : Driver) (env : Env) (msg : MQTTMessage) (d : String)
    (hacc : drv.acceptsExternalDevices = false)
    (hnew : drv.deviceMap d = none)
    (hd : (Split msg.Topic '/')[2]? = some d) :
    drv.ensureExtDevice d = Exec.done (none, some ("unknown device: " ++ d)) drv [] ∧
    drv.handleDeviceTitle msg =
      Exec.done () drv
        [Event.log ("Not registering external device " ++ d ++ ": " ++ ("unknown device: " ++ d))] ∧
    ∀ c : String, (Split msg.Topic '/')[4]? = some c →
      drv.handleExternalControlValue msg =
        Exec.done () drv
          [Event.log ("Cannot register external device " ++ d ++ ": " ++
            ("unknown device: " ++ d))] ∧
      drv.handleExternalControlType msg =
        Exec.done () drv
          [Event.log ("Cannot register external device " ++ d ++ ": " ++
            ("unknown device: " ++ d))] ∧
      drv.handleExternalControlMax env msg =
        Exec.done () drv
          [Event.log ("Cannot register external device " ++ d ++ ": " ++
            ("unknown device: " ++ d))] := by
  have hens : drv.ensureExtDevice d =
      Exec.done (none, some ("unknown device: " ++ d)) drv [] := by
    simp [Driver.ensureExtDevice, hnew, hacc]
  refine ⟨hens, ?_, ?_⟩
  · simp [Driver.handleDeviceTitle, hd, hens]
  · intro c hc
    refine ⟨?_, ?_, ?_⟩
    · simp [Driver.handleExternalControlValue, hd, hc, hens]
    · simp [Driver.handleExternalControlType, hd, hc, hens]
    · simp [Driver.handleExternalControlMax, hd, hc, hens]

theorem unknown_device_rejected_witness :
    (NewDriver plainModel).1.acceptsExternalDevices = false ∧
    (NewDriver plainModel).1.deviceMap "foo" = none ∧
    (Split (⟨"/devices/foo/controls/bar", "5", 0, true⟩ : MQTTMessage).Topic '/')[2]? =
      some "foo" ∧
    (Split (⟨"/devices/foo/controls/bar", "5", 0, true⟩ : MQTTMessage).Topic '/')[4]? =
      some "bar" ∧
    ((NewDriver plainModel).1.ensureExtDevice "foo" =
      Exec.done (none, some ("unknown device: " ++ "foo")) (NewDriver plainModel).1 [] ∧
    (NewDriver plainModel).1.handleDeviceTitle ⟨"/devices/foo/controls/bar", "5", 0, true⟩ =
      Exec.done () (NewDriver plainModel).1
        [Event.log ("Not registering external device " ++ "foo" ++ ": " ++
          ("unknown device: " ++ "foo"))] ∧
    ∀ c : String,
      (Split (⟨"/devices/foo/controls/bar", "5", 0, true⟩ : MQTTMessage).Topic '/')[4]? =
        some c →
      (NewDriver plainModel).1.handleExternalControlValue
          ⟨"/devices/foo/controls/bar", "5", 0, true⟩ =
        Exec.done () (NewDriver plainModel).1
          [Event.log ("Cannot register external device " ++ "foo" ++ ": " ++
            ("unknown device: " ++ "foo"))] ∧
      (NewDriver plainModel).1.handleExternalControlType
          ⟨"/devices/foo/controls/bar", "5", 0, true⟩ =
        Exec.done () (NewDriver plainModel).1
          [Event.log ("Cannot register external device " ++ "foo" ++ ": " ++
            ("unknown device: " ++ "foo"))] ∧
      (NewDriver plainModel).1.handleExternalControlMax echoEnv
          ⟨"/devices/foo/controls/bar", "5", 0, true⟩ =
        Exec.done () (NewDriver plainModel).1
          [Event.log ("Cannot register external device " ++ "foo" ++ ": " ++
            ("unknown device: " ++ "foo"))]) :=
  ⟨by decide, by decide, by decide, by decide,
    unknown_device_rejected (NewDriver plainModel).1 echoEnv
      ⟨"/devices/foo/controls/bar", "5", 0, true⟩ "foo" (by decide) (by decide) (by decide)⟩

/-- C10 (as the code behaves): with `acceptsExternalDevices` true, the device name `d` absent
from the registry and a model that does not implement `ExtendedModel`, `ensureExtDevice`
returns no error result: the type assertion `drv.model.(ExtendedModel)` panics, and each of
the four handlers called with a message naming `d` panics with it, writing no log line.  At
the panic the driver is as it was (registry and order counter unchanged) and no call has been
made: no `AddDevice`, no operation on a device, no publish. -/
theorem missing_capability_panics (drv : Driver) (env : Env) (msg : MQTTMessage) (d : String)
    (hacc : drv.acceptsExternalDevices = true)
    (hnew : drv.deviceMap d = none)
    (hmodel : drv.model.AddDevice = none)
    (hd : (Split msg.Topic '/')[2]? = some d) :
    drv.ensureExtDevice d = Exec.panic assertionPanic drv [] ∧
    drv.handleDeviceTitle msg = Exec.panic assertionPanic drv [] ∧
    ∀ c : String, (Split msg.Topic '/')[4]? = some c →
      drv.handleExternalControlValue msg = Exec.panic assertionPanic drv [] ∧
      drv.handleExternalControlType msg = Exec.panic assertionPanic drv [] ∧
      drv.handleExternalControlMax env msg = Exec.panic assertionPanic drv [] := by
  have hens : drv.ensureExtDevice d = Exec.panic assertionPanic drv [] := by
    simp [Driver.ensureExtDevice, hnew, hacc, hmodel]
  refine ⟨hens, ?_, ?_⟩
  · simp [Driver.handleDeviceTitle, hd, hens]
  · intro c hc
    refine ⟨?_, ?_, ?_⟩
    · simp [Driver.handleExternalControlValue, hd, hc, hens]
    · simp [Driver.handleExternalControlType, hd, hc, hens]
    · simp [Driver.handleExternalControlMax, hd, hc, hens]

theorem missing_capability_panics_witness :
    (acceptingDriver plainModel).acceptsExternalDevices = true ∧
    (acceptingDriver plainModel).deviceMap "foo" = none ∧
    (Split (⟨"/devices/foo/controls/bar", "5", 0, true⟩ : MQTTMessage).Topic '/')[2]? =
      some "foo" ∧
    ((acceptingDriver plainModel).ensureExtDevice "foo" =
      Exec.panic assertionPanic (acceptingDriver plainModel) [] ∧
    (acceptingDriver plainModel).handleDeviceTitle ⟨"/devices/foo/controls/bar", "5", 0, true⟩ =
      Exec.panic assertionPanic (acceptingDriver plainModel) [] ∧
    ∀ c : String,
      (Split (⟨"/devices/foo/controls/bar", "5", 0, true⟩ : MQTTMessage).Topic '/')[4]? =
        some c →
      (acceptingDriver plainModel).handleExternalControlValue
          ⟨"/devices/foo/controls/bar", "5", 0, true⟩ =
        Exec.panic assertionPanic (acceptingDriver plainModel) [] ∧
      (acceptingDriver plainModel).handleExternalControlType
          ⟨"/devices/foo/controls/bar", "5", 0, true⟩ =
        Exec.panic assertionPanic (acceptingDriver plainModel) [] ∧
      (acceptingDriver plainModel).handleExternalControlMax echoEnv
          ⟨"/devices/foo/controls/bar", "5", 0, true⟩ =
        Exec.panic assertionPanic (acceptingDriver plainModel) []) :=
  ⟨by decide, by decide, by decide,
    missing_capability_panics (acceptingDriver plainModel) echoEnv
      ⟨"/devices/foo/controls/bar", "5", 0, true⟩ "foo" (by decide) (by decide) rfl
      (by decide)⟩

/-- C10 as stated fails: on a new driver set to accept external devices, whose model does
not implement `ExtendedModel`, `ensureExtDevice("foo")` panics, and so does the handler of
a message on `/devices/foo/controls/bar`. -/
theorem missing_capability_not_an_error :
    ((acceptingDriver plainModel).ensureExtDevice "foo").panicked = true ∧
    ((acceptingDriver plainModel).handleExternalControlValue
      ⟨"/devices/foo/controls/bar", "5", 0, true⟩).panicked = true := by
  decide

/-! ### OnNewDevice, OnValue, SetAcceptsExternalDevices -/

theorem topic_meta_name (drv : Driver) (dev : DeviceModel) :
    drv.topic dev ["meta", "name"] = "/devices/" ++ dev.DevName ++ "/meta/name" := by
  apply String.ext
  simp only [Driver.topic, Join, String.data_append, List.append_assoc,
    List.cons_append, List.nil_append]

/-- C12: `OnNewDevice(dev)` makes the registry map `dev.Name()` to `dev`, whatever it held
for that name, leaves every other registry entry, the order counter and all other fields
unchanged, and publishes exactly one message, `/devices/<name>/meta/name` with payload
`dev.Title()`, QoS 1, retained, when `dev` is not external-capable, and no message when it
is. -/
theorem OnNewDevice_effect (drv : Driver) (dev : DeviceModel) :
    (drv.OnNewDevice dev).1 =
        { drv with deviceMap := Function.update drv.deviceMap dev.DevName (some dev) } ∧
      (drv.OnNewDevice dev).1.deviceMap dev.DevName = some dev ∧
      (∀ name : String, name ≠ dev.DevName →
        (drv.OnNewDevice dev).1.deviceMap name = drv.deviceMap name) ∧
      (drv.OnNewDevice dev).1.nextOrder = drv.nextOrder ∧
      publishes (drv.OnNewDevice dev).2 =
        (if dev.isExternal = true then []
         else [⟨"/devices/" ++ dev.DevName ++ "/meta/name", dev.DevTitle, 1, true⟩]) := by
  refine ⟨rfl, ?_, ?_, rfl, ?_⟩
  · simp [Driver.OnNewDevice]
  · intro name hname
    simp [Driver.OnNewDevice, Function.update_noteq hname]
  · cases hext : dev.isExternal <;>
      simp [Driver.OnNewDevice, Driver.publishMeta, Driver.publish, publishes, hext,
        topic_meta_name]

/-- C14: `OnValue(dev, c, v)` makes one call, a publish of payload `v` with QoS 1: on
`/devices/<name>/controls/<c>`, retained, when `dev` is not external-capable, and on
`/devices/<name>/controls/<c>/on`, not retained, when it is; the driver (registry, order
counter and all) is unchanged. -/
theorem OnValue_effect (drv : Driver) (dev : DeviceModel) (c v : String) :
    (drv.OnValue dev c v).1 = drv ∧
      (drv.OnValue dev c v).2 =
        [Event.clientPublish
          (if dev.isExternal = true then
            ⟨"/devices/" ++ dev.DevName ++ "/controls/" ++ c ++ "/on", v, 1, false⟩
           else ⟨"/devices/" ++ dev.DevName ++ "/controls/" ++ c, v, 1, true⟩)] ∧
      publishes (drv.OnValue dev c v).2 =
        [if dev.isExternal = true then
            ⟨"/devices/" ++ dev.DevName ++ "/controls/" ++ c ++ "/on", v, 1, false⟩
          else ⟨"/devices/" ++ dev.DevName ++ "/controls/" ++ c, v, 1, true⟩] := by
  cases hext : dev.isExternal <;>
    simp [Driver.OnValue, Driver.publishOnValue, Driver.publishValue, Driver.publish, publishes,
      hext, controlTopic_nil]

/-- C17: `SetAcceptsExternalDevices(x)` panics exactly when the driver is active, and then
leaves the driver as it was; on an inactive driver it returns, having set
`acceptsExternalDevices` to `x` and no other field, so that `AcceptsExternalDevices()` then
returns `x`; it makes no call on the collaborators either way. -/
theorem SetAcceptsExternalDevices_effect (drv : Driver) (x : Bool) :
    ((drv.SetAcceptsExternalDevices x).panicked = true ↔ drv.active = true) ∧
      (drv.SetAcceptsExternalDevices x).driver =
        (if drv.active = true then drv else { drv with acceptsExternalDevices := x }) ∧
      (drv.SetAcceptsExternalDevices x).events = [] ∧
      (drv.active = false →
        (drv.SetAcceptsExternalDevices x).driver.AcceptsExternalDevices = x) := by
  cases hact : drv.active <;>
    simp [Driver.SetAcceptsExternalDevices, Exec.panicked, Exec.driver, Exec.events,
      Driver.AcceptsExternalDevices, hact]

/-! ### Commands and the precedence of local devices -/

theorem splitChars_control (d c r : List Char) (hd : '/' ∉ d) (hc : '/' ∉ c) :
    splitChars '/' ([] ++ '/' :: ("devices".data ++ '/' :: (d ++ '/' :: ("controls".data ++
        '/' :: (c ++ '/' :: r))))) =
      [[], "devices".data, d, "controls".data, c] ++ splitChars '/' r := by
  rw [splitChars_append_sep _ _ _ (by simp), splitChars_append_sep _ _ _ (by decide),
    splitChars_append_sep _ _ _ hd, splitChars_append_sep _ _ _ (by decide),
    splitChars_append_sep _ _ _ hc]
  rfl

theorem split_control_topic_on (d c : String) (hd : '/' ∉ d.data) (hc : '/' ∉ c.data) :
    Split ("/devices/" ++ d ++ "/controls/" ++ c ++ "/on") '/' =
      ["", "devices", d, "controls", c, "on"] := by
  have e : ("/devices/" ++ d ++ "/controls/" ++ c ++ "/on").data =
      [] ++ '/' :: ("devices".data ++ '/' :: (d.data ++ '/' :: ("controls".data ++
        '/' :: (c.data ++ '/' :: "on".data)))) := by
    simp only [String.data_append, List.append_assoc]
    rfl
  unfold Split
  rw [e, splitChars_control _ _ _ hd hc]
  rfl

theorem handleIncomingMQTTOnValue_found (drv : Driver) (env : Env) (msg : MQTTMessage)
    (d c : String) (dev : DeviceModel)
    (hd : (Split msg.Topic '/')[2]? = some d) (hc : (Split msg.Topic '/')[4]? = some c)
    (hdev : drv.deviceMap d = some dev) :
    (drv.handleIncomingMQTTOnValue env msg).panicked = false ∧
      (drv.handleIncomingMQTTOnValue env msg).driver = drv ∧
      deviceOps (drv.handleIncomingMQTTOnValue env msg).events =
        [Event.devSendValue dev c msg.Payload] ∧
      publishes (drv.handleIncomingMQTTOnValue env msg).events =
        (if env.SendValue dev c msg.Payload = true then
          [⟨"/devices/" ++ dev.DevName ++ "/controls/" ++ c, msg.Payload, 1, true⟩]
         else []) := by
  cases hsend : env.SendValue dev c msg.Payload <;>
    simp [Driver.handleIncomingMQTTOnValue, hd, hc, hdev, hsend, Exec.panicked, Exec.driver,
      Exec.events, deviceOps, publishes, Event.isDeviceOp, Driver.publishValue, Driver.publish,
      controlTopic_nil, List.filter]

theorem handleIncomingMQTTOnValue_unknown (drv : Driver) (env : Env) (msg : MQTTMessage)
    (d c : String)
    (hd : (Split msg.Topic '/')[2]? = some d) (hc : (Split msg.Topic '/')[4]? = some c)
    (hdev : drv.deviceMap d = none) :
    (drv.handleIncomingMQTTOnValue env msg).panicked = false ∧
      (drv.handleIncomingMQTTOnValue env msg).driver = drv ∧
      deviceOps (drv.handleIncomingMQTTOnValue env msg).events = [] ∧
      publishes (drv.handleIncomingMQTTOnValue env msg).events = [] := by
  simp [Driver.handleIncomingMQTTOnValue, hd, hc, hdev, Exec.panicked, Exec.driver,
    Exec.events, deviceOps, publishes, Event.isDeviceOp, List.filter]

/-- C13 (as the code behaves): for a command message on `/devices/<d>/controls/<c>/on`,
where `d` and `c` hold no `/`, with payload `p`, `handleIncomingMQTTOnValue` returns with the driver unchanged; when `d` is
in the registry as `dev`, the only operation on a device is one `dev.SendValue(c, p)`, and
the messages published are the single message `/devices/<dev.Name()>/controls/<c>` with
payload `p`, QoS 1, retained, when `SendValue` returns true, and none when it returns false;
when `d` is not in the registry, no operation on a device is invoked and nothing is
published. -/
theorem handleIncomingMQTTOnValue_effect (drv : Driver) (env : Env) (d c p : String)
    (qos : Nat) (retained : Bool)
    (hd : '/' ∉ d.data) (hc : '/' ∉ c.data) :
    (∀ dev : DeviceModel, drv.deviceMap d = some dev →
      (drv.handleIncomingMQTTOnValue env
          ⟨"/devices/" ++ d ++ "/controls/" ++ c ++ "/on", p, qos, retained⟩).panicked = false ∧
      (drv.handleIncomingMQTTOnValue env
          ⟨"/devices/" ++ d ++ "/controls/" ++ c ++ "/on", p, qos, retained⟩).driver = drv ∧
      deviceOps (drv.handleIncomingMQTTOnValue env
          ⟨"/devices/" ++ d ++ "/controls/" ++ c ++ "/on", p, qos, retained⟩).events =
        [Event.devSendValue dev c p] ∧
      publishes (drv.handleIncomingMQTTOnValue env
          ⟨"/devices/" ++ d ++ "/controls/" ++ c ++ "/on", p, qos, retained⟩).events =
        (if env.SendValue dev c p = true then
          [⟨"/devices/" ++ dev.DevName ++ "/controls/" ++ c, p, 1, true⟩]
         else [])) ∧
    (drv.deviceMap d = none →
      (drv.handleIncomingMQTTOnValue env
          ⟨"/devices/" ++ d ++ "/controls/" ++ c ++ "/on", p, qos, retained⟩).panicked = false ∧
      (drv.handleIncomingMQTTOnValue env
          ⟨"/devices/" ++ d ++ "/controls/" ++ c ++ "/on", p, qos, retained⟩).driver = drv ∧
      deviceOps (drv.handleIncomingMQTTOnValue env
          ⟨"/devices/" ++ d ++ "/controls/" ++ c ++ "/on", p, qos, retained⟩).events = [] ∧
      publishes (drv.handleIncomingMQTTOnValue env
          ⟨"/devices/" ++ d ++ "/controls/" ++ c ++ "/on", p, qos, retained⟩).events = []) := by
  have h2 : (Split (⟨"/devices/" ++ d ++ "/controls/" ++ c ++ "/on", p, qos, retained⟩ :
      MQTTMessage).Topic '/')[2]? = some d := by
    simp [split_control_topic_on d c hd hc]
  have h4 : (Split (⟨"/devices/" ++ d ++ "/controls/" ++ c ++ "/on", p, qos, retained⟩ :
      MQTTMessage).Topic '/')[4]? = some c := by
    simp [split_control_topic_on d c hd hc]
  exact ⟨fun dev hdev => handleIncomingMQTTOnValue_found drv env _ d c dev h2 h4 hdev,
    fun hdev => handleIncomingMQTTOnValue_unknown drv env _ d c h2 h4 hdev⟩

theorem handleIncomingMQTTOnValue_effect_witness :
    '/' ∉ "relay".data ∧ '/' ∉ "k1".data ∧
    ((NewDriver plainModel).1.OnNewDevice relay).1.deviceMap "relay" = some relay ∧
    deviceOps (((NewDriver plainModel).1.OnNewDevice relay).1.handleIncomingMQTTOnValue echoEnv
        ⟨"/devices/" ++ "relay" ++ "/controls/" ++ "k1" ++ "/on", "1", 0, false⟩).events =
      [Event.devSendValue relay "k1" "1"] ∧
    publishes (((NewDriver plainModel).1.OnNewDevice relay).1.handleIncomingMQTTOnValue echoEnv
        ⟨"/devices/" ++ "relay" ++ "/controls/" ++ "k1" ++ "/on", "1", 0, false⟩).events =
      (if echoEnv.SendValue relay "k1" "1" = true then
        [⟨"/devices/" ++ relay.DevName ++ "/controls/" ++ "k1", "1", 1, true⟩]
       else []) :=
  ⟨by decide, by decide, by decide,
    ((handleIncomingMQTTOnValue_effect ((NewDriver plainModel).1.OnNewDevice relay).1 echoEnv
      "relay" "k1" "1" 0 false (by decide) (by decide)).1 relay (by decide)).2.2.1,
    ((handleIncomingMQTTOnValue_effect ((NewDriver plainModel).1.OnNewDevice relay).1 echoEnv
      "relay" "k1" "1" 0 false (by decide) (by decide)).1 relay (by decide)).2.2.2⟩

/-- C13 as stated fails for a control name that holds a `/`: with `relay` registered, the
command on `/devices/relay/controls/x/y/on`, the topic of control `x/y`, is read by segment
position as control `x`; `SendValue` is called with `x`, not `x/y`, and the echo is
published on `/devices/relay/controls/x`, not on `/devices/relay/controls/x/y`. -/
theorem handleIncomingMQTTOnValue_slash_control :
    ((NewDriver plainModel).1.OnNewDevice relay).1.deviceMap "relay" = some relay ∧
    deviceOps (((NewDriver plainModel).1.OnNewDevice relay).1.handleIncomingMQTTOnValue echoEnv
        ⟨"/devices/" ++ "relay" ++ "/controls/" ++ "x/y" ++ "/on", "1", 0, false⟩).events =
      [Event.devSendValue relay "x" "1"] ∧
    ¬ (deviceOps (((NewDriver plainModel).1.OnNewDevice relay).1.handleIncomingMQTTOnValue
        echoEnv
        ⟨"/devices/" ++ "relay" ++ "/controls/" ++ "x/y" ++ "/on", "1", 0, false⟩).events =
      [Event.devSendValue relay "x/y" "1"]) ∧
    publishes (((NewDriver plainModel).1.OnNewDevice relay).1.handleIncomingMQTTOnValue echoEnv
        ⟨"/devices/" ++ "relay" ++ "/controls/" ++ "x/y" ++ "/on", "1", 0, false⟩).events =
      [⟨"/devices/relay/controls/x", "1", 1, true⟩] ∧
    ¬ (publishes (((NewDriver plainModel).1.OnNewDevice relay).1.handleIncomingMQTTOnValue
        echoEnv
        ⟨"/devices/" ++ "relay" ++ "/controls/" ++ "x/y" ++ "/on", "1", 0, false⟩).events =
      (if echoEnv.SendValue relay "x/y" "1" = true then
        [⟨"/devices/" ++ relay.DevName ++ "/controls/" ++ "x/y", "1", 1, true⟩]
       else [])) := by
  decide

theorem ensureExtDevice_local (drv : Driver) (d : String) (dev : DeviceModel)
    (hdev : drv.deviceMap d = some dev) (hloc : dev.isExternal = false) :
    drv.ensureExtDevice d = Exec.done (none, none) drv [] := by
  simp [Driver.ensureExtDevice, hdev, hloc]

/-- C11 (as the code behaves): once `OnNewDevice` has registered a local device `L`,
whatever the registry held for its name before, in particular an external proxy `X`, a
command message on `/devices/<name>/controls/<c>/on`, where the name and `c` hold no `/`,
invokes `SendValue(c, p)` on `L`, and no operation on an external-capable `X`; and
each of the four external-message handlers (title; control value, type and max), given a
message whose topic carries that name at segment 2, returns having made no call at all (no
operation on any device, no `AddDevice`, no log line) and leaves the driver, registry
included, unchanged. -/
theorem local_device_authoritative (drv : Driver) (env : Env) (L X : DeviceModel)
    (c p : String) (qos : Nat) (retained : Bool) (msg : MQTTMessage)
    (hL : L.isExternal = false) (hXe : X.isExternal = true)
    (hd : '/' ∉ L.DevName.data) (hc : '/' ∉ c.data)
    (hmsg : (Split msg.Topic '/')[2]? = some L.DevName) :
    deviceOps ((drv.OnNewDevice L).1.handleIncomingMQTTOnValue env
        ⟨"/devices/" ++ L.DevName ++ "/controls/" ++ c ++ "/on", p, qos, retained⟩).events =
      [Event.devSendValue L c p] ∧
    (∀ e : Event, e ∈ deviceOps ((drv.OnNewDevice L).1.handleIncomingMQTTOnValue env
        ⟨"/devices/" ++ L.DevName ++ "/controls/" ++ c ++ "/on", p, qos, retained⟩).events →
      ∀ n v : String, e ≠ Event.devSendValue X n v) ∧
    (drv.OnNewDevice L).1.handleDeviceTitle msg = Exec.done () (drv.OnNewDevice L).1 [] ∧
    ∀ c2 : String, (Split msg.Topic '/')[4]? = some c2 →
      (drv.OnNewDevice L).1.handleExternalControlValue msg =
        Exec.done () (drv.OnNewDevice L).1 [] ∧
      (drv.OnNewDevice L).1.handleExternalControlType msg =
        Exec.done () (drv.OnNewDevice L).1 [] ∧
      (drv.OnNewDevice L).1.handleExternalControlMax env msg =
        Exec.done () (drv.OnNewDevice L).1 [] := by
  have hreg : (drv.OnNewDevice L).1.deviceMap L.DevName = some L := by
    simp [Driver.OnNewDevice]
  have hens := ensureExtDevice_local (drv.OnNewDevice L).1 L.DevName L hreg hL
  have hne : L ≠ X := fun e => by rw [e, hXe] at hL; exact Bool.noConfusion hL
  have hops := (handleIncomingMQTTOnValue_found (drv.OnNewDevice L).1 env
    ⟨"/devices/" ++ L.DevName ++ "/controls/" ++ c ++ "/on", p, qos, retained⟩ L.DevName c L
    (by simp [split_control_topic_on L.DevName c hd hc])
    (by simp [split_control_topic_on L.DevName c hd hc]) hreg).2.2.1
  refine ⟨hops, ?_, ?_, ?_⟩
  · intro e he
    rw [hops] at he
    have : e = Event.devSendValue L c p := by simpa using he
    rw [this]
    intro n v h
    injection h with h1
    exact hne h1
  · simp [Driver.handleDeviceTitle, hmsg, hens]
  · intro c2 hc2
    refine ⟨?_, ?_, ?_⟩
    · simp [Driver.handleExternalControlValue, hmsg, hc2, hens]
    · simp [Driver.handleExternalControlType, hmsg, hc2, hens]
    · simp [Driver.handleExternalControlMax, hmsg, hc2, hens]

theorem local_device_authoritative_witness :
    therm.isExternal = false ∧
    proxyDriver.deviceMap therm.DevName = some thermProxy ∧
    thermProxy.isExternal = true ∧
    '/' ∉ therm.DevName.data ∧ '/' ∉ "temp".data ∧
    (Split (⟨"/devices/therm/meta/name", "Room", 1, true⟩ : MQTTMessage).Topic '/')[2]? =
      some therm.DevName ∧
    deviceOps ((proxyDriver.OnNewDevice therm).1.handleIncomingMQTTOnValue echoEnv
        ⟨"/devices/" ++ therm.DevName ++ "/controls/" ++ "temp" ++ "/on", "25", 0, false⟩).events =
      [Event.devSendValue therm "temp" "25"] ∧
    (proxyDriver.OnNewDevice therm).1.handleDeviceTitle
        ⟨"/devices/therm/meta/name", "Room", 1, true⟩ =
      Exec.done () (proxyDriver.OnNewDevice therm).1 [] :=
  ⟨by decide, by decide, by decide, by decide, by decide, by decide,
    (local_device_authoritative proxyDriver echoEnv therm thermProxy "temp" "25" 0 false
      ⟨"/devices/therm/meta/name", "Room", 1, true⟩ (by decide) (by decide) (by decide)
      (by decide) (by decide)).1,
    (local_device_authoritative proxyDriver echoEnv therm thermProxy "temp" "25" 0 false
      ⟨"/devices/therm/meta/name", "Room", 1, true⟩ (by decide) (by decide) (by decide)
      (by decide) (by decide)).2.2.1⟩

/-- C11 as stated fails for a device name that holds a `/`: with the local device `a/b`
registered over an external proxy of that name, the command on
`/devices/a/b/controls/c/on` is read by segment position as device `a`, which the registry
does not hold, so `SendValue` is not invoked on the local device (no operation on a device is
invoked at all); and the title message on `/devices/a/b/meta/name` makes the handler call
`AddDevice("a")` and changes the registry. -/
theorem local_device_slash_name :
    slashLocal.isExternal = false ∧ slashProxy.isExternal = true ∧
    ((acceptingDriver extModel).OnNewDevice slashProxy).1.deviceMap "a/b" = some slashProxy ∧
    slashDriver.deviceMap "a/b" = some slashLocal ∧
    deviceOps (slashDriver.handleIncomingMQTTOnValue echoEnv
        ⟨"/devices/" ++ slashLocal.DevName ++ "/controls/" ++ "c" ++ "/on", "1", 0,
          false⟩).events = [] ∧
    addDeviceCalls (slashDriver.handleDeviceTitle
        ⟨"/devices/" ++ slashLocal.DevName ++ "/meta/name", "T", 1, true⟩).events = ["a"] ∧
    slashDriver.deviceMap "a" = none ∧
    (slashDriver.handleDeviceTitle
        ⟨"/devices/" ++ slashLocal.DevName ++ "/meta/name", "T", 1, true⟩).driver.deviceMap "a" =
      some ⟨7, "a", "", true⟩ := by
  decide

/-! ### Building and parsing topics -/

theorem Join_cons_slash (xs : List String) :
    ∀ x : String, Join (x :: xs) "/" =
      x ++ (xs.map fun y => "/" ++ y).foldr (fun a b => a ++ b) "" := by
  induction xs with
  | nil =>
    intro x
    apply String.ext
    simp [Join]
  | cons y ys ih =>
    intro x
    rw [Join, ih y]
    apply String.ext
    simp [String.data_append]

theorem controlTopic_eq (drv : Driver) (dev : DeviceModel) (c : String) (sub : List String) :
    drv.controlTopic dev c sub =
      "/devices/" ++ dev.DevName ++ "/controls/" ++ c ++
        (sub.map fun y => "/" ++ y).foldr (fun a b => a ++ b) "" := by
  unfold Driver.controlTopic Driver.topic
  rw [show (["/devices", dev.DevName] ++ (["controls", c] ++ sub)) =
    "/devices" :: (dev.DevName :: "controls" :: c :: sub) from rfl, Join_cons_slash]
  apply String.ext
  simp only [List.map_cons, List.foldr_cons, String.data_append, List.append_assoc]
  rfl

/-- C20: for a device name and a control name without `/` and any suffix segments,
`controlTopic` builds the string `/devices/<d>/controls/<c>` followed by each suffix segment
with a `/` before it, and splitting that topic by `/` gives the device name at segment 2 and
the control name at segment 4. -/
theorem controlTopic_roundtrip (drv : Driver) (dev : DeviceModel) (c : String)
    (sub : List String)
    (hd : '/' ∉ dev.DevName.data) (hc : '/' ∉ c.data) :
    drv.controlTopic dev c sub =
        "/devices/" ++ dev.DevName ++ "/controls/" ++ c ++
          (sub.map fun y => "/" ++ y).foldr (fun a b => a ++ b) "" ∧
      (Split (drv.controlTopic dev c sub) '/')[2]? = some dev.DevName ∧
      (Split (drv.controlTopic dev c sub) '/')[4]? = some c := by
  refine ⟨controlTopic_eq drv dev c sub, ?_⟩
  rw [controlTopic_eq]
  cases sub with
  | nil =>
    have e : "/devices/" ++ dev.DevName ++ "/controls/" ++ c ++
        (([] : List String).map fun y => "/" ++ y).foldr (fun a b => a ++ b) "" =
        "/devices/" ++ dev.DevName ++ "/controls/" ++ c := by
      apply String.ext
      simp [String.data_append]
    rw [e, split_control_topic _ _ hd hc]
    simp
  | cons y ys =>
    have e : ("/devices/" ++ dev.DevName ++ "/controls/" ++ c ++
        ((y :: ys).map fun y => "/" ++ y).foldr (fun a b => a ++ b) "").data =
        [] ++ '/' :: ("devices".data ++ '/' :: (dev.DevName.data ++ '/' :: ("controls".data ++
          '/' :: (c.data ++ '/' :: (y ++
            (ys.map fun y => "/" ++ y).foldr (fun a b => a ++ b) "").data)))) := by
      simp only [List.map_cons, List.foldr_cons, String.data_append, List.append_assoc]
      rfl
    unfold Split
    rw [e, splitChars_control _ _ _ hd hc]
    simp

theorem controlTopic_roundtrip_witness :
    '/' ∉ therm.DevName.data ∧ '/' ∉ "temp".data ∧
    ((NewDriver plainModel).1.controlTopic therm "temp" ["meta", "type"] =
        "/devices/" ++ therm.DevName ++ "/controls/" ++ "temp" ++
          (["meta", "type"].map fun y => "/" ++ y).foldr (fun a b => a ++ b) "" ∧
      (Split ((NewDriver plainModel).1.controlTopic therm "temp" ["meta", "type"]) '/')[2]? =
        some therm.DevName ∧
      (Split ((NewDriver plainModel).1.controlTopic therm "temp" ["meta", "type"]) '/')[4]? =
        some "temp") ∧
    (NewDriver plainModel).1.controlTopic therm "temp" ["meta", "type"] =
      "/devices/therm/controls/temp/meta/type" :=
  ⟨by decide, by decide,
    controlTopic_roundtrip (NewDriver plainModel).1 therm "temp" ["meta", "type"] (by decide)
      (by decide),
    by decide⟩

/-! ### Start and Stop -/

theorem Start_model_failure (drv : Driver) (err : GoError)
    (hact : drv.active = false) (hfail : drv.model.Start = some err) :
    drv.Start = ⟨some err, { drv with active := true }, [Event.clientStart, Event.modelStart],
      none, false, none⟩ := by
  simp [Driver.Start, hact, hfail]

theorem Start_active (drv : Driver) (hact : drv.active = true) :
    drv.Start = ⟨none, drv, [], none, false, none⟩ := by
  simp [Driver.Start, hact]

theorem Start_ticker_panic (drv : Driver)
    (hact : drv.active = false) (hok : drv.model.Start = none)
    (htick : drv.autoPoll = true ∧ drv.pollDuration ≤ 0) :
    drv.Start = ⟨none, { drv with active := true }, [Event.clientStart, Event.modelStart],
      none, false, some tickerPanic⟩ := by
  have h2 : wrapInt (drv.pollIntervalMs * 1000000) ≤ 0 := htick.2
  simp [Driver.Start, Driver.pollDuration, hact, hok, htick.1, h2]

theorem Start_launches (drv : Driver)
    (hact : drv.active = false) (hok : drv.model.Start = none)
    (htick : drv.autoPoll = false ∨ 0 < drv.pollDuration) :
    drv.Start.launched = true ∧ drv.Start.drv = { drv with active := true } ∧
      drv.Start.err = none ∧ drv.Start.panic = none := by
  have h2 : ¬ (drv.autoPoll = true ∧ wrapInt (drv.pollIntervalMs * 1000000) ≤ 0) := by
    rintro ⟨ha, hd⟩
    rcases htick with h | h
    · rw [ha] at h; exact Bool.noConfusion h
    · have : 0 < wrapInt (drv.pollIntervalMs * 1000000) := h
      omega
  simp [Driver.Start, Driver.pollDuration, hact, hok, h2]

/-- C15 (as the code behaves): when the model's `Start` fails on a driver that is not active,
`Start` returns that error after starting the transport and calling the model's `Start`, and
nothing else: no subscription is made, no ticker is created and no dispatch goroutine is
launched.  The `active` flag, set before the transport is started, stays set: the driver
returned is the old one with `active` true, so that a further `Start` returns nil at once
without a call. -/
theorem Start_failure_effect (drv : Driver) (err : GoError)
    (hact : drv.active = false) (hfail : drv.model.Start = some err) :
    drv.Start.err = some err ∧
      drv.Start.events = [Event.clientStart, Event.modelStart] ∧
      subscribes drv.Start.events = [] ∧
      drv.Start.ticker = none ∧
      drv.Start.launched = false ∧
      drv.Start.drv = { drv with active := true } ∧
      drv.Start.drv.active = true ∧
      drv.Start.drv.Start = ⟨none, drv.Start.drv, [], none, false, none⟩ := by
  rw [Start_model_failure drv err hact hfail]
  refine ⟨rfl, rfl, ?_, rfl, rfl, rfl, rfl, ?_⟩
  · simp [subscribes]
  · exact Start_active _ rfl

theorem Start_failure_effect_witness :
    (NewDriver failingModel).1.active = false ∧
    (NewDriver failingModel).1.model.Start = some "model start failed" ∧
    (NewDriver failingModel).1.Start.err = some "model start failed" ∧
    (NewDriver failingModel).1.Start.events = [Event.clientStart, Event.modelStart] ∧
    (NewDriver failingModel).1.Start.launched = false ∧
    (NewDriver failingModel).1.Start.drv.active = true :=
  ⟨by decide, by decide,
    (Start_failure_effect (NewDriver failingModel).1 "model start failed" (by decide)
      (by decide)).1,
    (Start_failure_effect (NewDriver failingModel).1 "model start failed" (by decide)
      (by decide)).2.1,
    (Start_failure_effect (NewDriver failingModel).1 "model start failed" (by decide)
      (by decide)).2.2.2.2.1,
    (Start_failure_effect (NewDriver failingModel).1 "model start failed" (by decide)
      (by decide)).2.2.2.2.2.2.1⟩

/-- C15 as stated fails: on a new driver whose model's `Start` fails, `Start` returns the
error and the `active` flag, false before the call, is not false after it. -/
theorem Start_failure_not_inactive :
    (NewDriver failingModel).1.active = false ∧
    (NewDriver failingModel).1.Start.err = some "model start failed" ∧
    ¬ ((NewDriver failingModel).1.Start.drv.active = false) := by
  decide

/-- C16 (as the code behaves): after a successful `Start` on a driver that was not active
(the model starts and, with `autoPoll` on, the poll duration is positive, so that
`time.NewTicker` does not panic), a
`Stop`, and the dispatch loop taking the termination request, the loop has stopped the
ticker, the model and the transport and has ended, one dispatch goroutine having been
launched in all; but nothing clears the `active` flag: the driver is the old one with
`active` true, so `SetAcceptsExternalDevices` panics and a further `Start` returns nil at once
without starting the transport, the model or a loop. -/
theorem Start_Stop_leaves_active (drv : Driver) (x : Bool)
    (hact : drv.active = false) (hok : drv.model.Start = none)
    (htick : drv.autoPoll = false ∨ 0 < drv.pollDuration) :
    ∃ sys : System,
      (System.init drv).run [Action.start, Action.stop, Action.loopQuit] = some sys ∧
      sys.drv = { drv with active := true } ∧
      sys.loops = 0 ∧ sys.launched = 1 ∧ sys.quitWaiting = 0 ∧ sys.ticker = none ∧
      sys.trace = drv.Start.events ++ [Event.log "----(Stop)"] ++
        [Event.log "Driver: stopping the client", Event.modelStop, Event.clientStop] ∧
      (sys.drv.SetAcceptsExternalDevices x).panicked = true ∧
      sys.drv.Start = ⟨none, sys.drv, [], none, false, none⟩ := by
  obtain ⟨hl, hd, _, hp⟩ := Start_launches drv hact hok htick
  have hrun : (System.init drv).run [Action.start, Action.stop, Action.loopQuit] =
      some { System.init drv with
        drv := { drv with active := true }
        trace := drv.Start.events ++ [Event.log "----(Stop)"] ++
          [Event.log "Driver: stopping the client", Event.modelStop, Event.clientStop]
        launched := 1 } := by
    simp [System.run, System.step, System.init, hl, hd, hp, Driver.Stop]
  refine ⟨_, hrun, rfl, rfl, rfl, rfl, rfl, rfl, ?_, ?_⟩
  · simp [Driver.SetAcceptsExternalDevices, Exec.panicked]
  · exact Start_active _ rfl

theorem Start_Stop_leaves_active_witness :
    (NewDriver plainModel).1.active = false ∧
    (NewDriver plainModel).1.model.Start = none ∧
    ((NewDriver plainModel).1.autoPoll = false ∨ 0 < (NewDriver plainModel).1.pollDuration) ∧
    ∃ sys : System,
      (System.init (NewDriver plainModel).1).run
        [Action.start, Action.stop, Action.loopQuit] = some sys ∧
      sys.drv = { (NewDriver plainModel).1 with active := true } ∧
      sys.loops = 0 ∧ sys.launched = 1 ∧ sys.quitWaiting = 0 ∧ sys.ticker = none ∧
      sys.trace = (NewDriver plainModel).1.Start.events ++ [Event.log "----(Stop)"] ++
        [Event.log "Driver: stopping the client", Event.modelStop, Event.clientStop] ∧
      (sys.drv.SetAcceptsExternalDevices true).panicked = true ∧
      sys.drv.Start = ⟨none, sys.drv, [], none, false, none⟩ :=
  ⟨by decide, by decide, by decide,
    Start_Stop_leaves_active (NewDriver plainModel).1 true (by decide) (by decide)
      (by decide)⟩

/-- C16 as stated fails: on a new driver, after `Start`, `Stop` and the loop taking the
termination request, the loop has ended but the `active` flag is true,
`SetAcceptsExternalDevices` panics, and `Start` launches nothing and makes no call. -/
theorem Start_Stop_not_inactive :
    ((System.init (NewDriver plainModel).1).run
        [Action.start, Action.stop, Action.loopQuit]).map
      (fun sys => (sys.loops, sys.drv.active,
        (sys.drv.SetAcceptsExternalDevices true).panicked,
        sys.drv.Start.launched, sys.drv.Start.events)) =
      some (0, true, true, false, []) := by
  decide

/-! ### The handlers' fixed-position reads -/

theorem ensureExtDevice_panic_reason (drv : Driver) (d : String) (r : String) (drv1 : Driver)
    (evs : List Event) (h : drv.ensureExtDevice d = Exec.panic r drv1 evs) :
    r = assertionPanic := by
  unfold Driver.ensureExtDevice at h
  repeat' split at h
  all_goals first
    | (injection h with h1 _ _; exact h1.symm)
    | exact Exec.noConfusion h

theorem assertionPanic_ne_indexPanic : assertionPanic ≠ indexPanic := by
  decide

theorem handle_no_index_panic (drv : Driver) (h : HandlerMethod) (env : Env)
    (msg : MQTTMessage) (d c : String)
    (hd : (Split msg.Topic '/')[2]? = some d) (hc : (Split msg.Topic '/')[4]? = some c) :
    (drv.handle h env msg).panicReason ≠ some indexPanic := by
  have key : ∀ r drv1 evs, drv.ensureExtDevice d = Exec.panic r drv1 evs →
      (some r : Option String) ≠ some indexPanic := by
    intro r drv1 evs hx
    rw [ensureExtDevice_panic_reason drv d r drv1 evs hx]
    simpa using assertionPanic_ne_indexPanic
  cases h
  · simp only [Driver.handle, Driver.handleIncomingMQTTOnValue, hd, hc]
    repeat' split
    all_goals simp [Exec.panicReason]
  · simp only [Driver.handle, Driver.handleDeviceTitle, hd]
    cases hx : drv.ensureExtDevice d with
    | panic r drv1 evs => simpa [Exec.panicReason] using key r drv1 evs hx
    | done val drv1 evs => simp [Exec.panicReason]
  · simp only [Driver.handle, Driver.handleExternalControlValue, hd, hc]
    cases hx : drv.ensureExtDevice d with
    | panic r drv1 evs => simpa [Exec.panicReason] using key r drv1 evs hx
    | done val drv1 evs => simp [Exec.panicReason]
  · simp only [Driver.handle, Driver.handleExternalControlType, hd, hc]
    cases hx : drv.ensureExtDevice d with
    | panic r drv1 evs => simpa [Exec.panicReason] using key r drv1 evs hx
    | done val drv1 evs => simp [Exec.panicReason]
  · simp only [Driver.handle, Driver.handleExternalControlMax, hd, hc]
    cases hx : drv.ensureExtDevice d with
    | panic r drv1 evs => simpa [Exec.panicReason] using key r drv1 evs hx
    | done val drv1 evs =>
      obtain ⟨dev, err⟩ := val
      cases err with
      | some e => simp [Exec.panicReason]
      | none =>
        cases dev with
        | none => simp [Exec.panicReason]
        | some dev =>
          simp only
          cases env.ParseFloat msg.Payload <;> simp [Exec.panicReason]

theorem Start_subscribes (drv : Driver) (hact : drv.active = false)
    (hok : drv.model.Start = none)
    (htick : drv.autoPoll = false ∨ 0 < drv.pollDuration) :
    subscribes drv.Start.events =
      if drv.acceptsExternalDevices = true then
        externalSubscriptions.map fun hp =>
          (MQTTMessageHandler.callSync (MQTTMessageHandler.method hp.1), [hp.2])
      else [] := by
  have h2 : ¬ (drv.autoPoll = true ∧ wrapInt (drv.pollIntervalMs * 1000000) ≤ 0) := by
    rintro ⟨ha, hd⟩
    rcases htick with h | h
    · rw [ha] at h; exact Bool.noConfusion h
    · have : 0 < wrapInt (drv.pollIntervalMs * 1000000) := h
      omega
  cases hacc : drv.acceptsExternalDevices <;>
    simp [Driver.Start, Driver.pollDuration, hact, hok, hacc, h2, subscribes, Driver.subscribe,
      Driver.wrapMessageHandler, externalSubscriptions]

/-- C19: for each handler that `Start` subscribes with its pattern (`handleDeviceTitle` with
`/devices/+/meta/name`, `handleExternalControlValue` with `/devices/+/controls/+`,
`handleExternalControlType` with `/devices/+/controls/+/meta/type`,
`handleExternalControlMax` with `/devices/+/controls/+/meta/max`), a topic that `topicMatch`
accepts against the pattern splits into exactly 5, 5, 7 and 7 segments respectively, so
segments 2 and 4 exist and the handler, run on a message with that topic, does not panic on
an index out of range. -/
theorem subscribed_topic_segments (h : HandlerMethod) (pattern t : String)
    (hsub : (h, pattern) ∈ externalSubscriptions)
    (hmatch : topicMatch pattern t = true) :
    (Split t '/').length =
        (match h with
          | HandlerMethod.handleExternalControlType => 7
          | HandlerMethod.handleExternalControlMax => 7
          | _ => 5) ∧
      (∃ d : String, (Split t '/')[2]? = some d) ∧
      (∃ c : String, (Split t '/')[4]? = some c) ∧
      ∀ (drv : Driver) (env : Env) (p : String) (qos : Nat) (retained : Bool),
        (drv.handle h env ⟨t, p, qos, retained⟩).panicReason ≠ some indexPanic := by
  have hlen : (Split t '/').length =
      (match h with
        | HandlerMethod.handleExternalControlType => 7
        | HandlerMethod.handleExternalControlMax => 7
        | _ => 5) ∧ 5 ≤ (Split t '/').length := by
    simp only [externalSubscriptions, List.mem_cons, Prod.mk.injEq, List.mem_singleton,
      List.not_mem_nil, or_false] at hsub
    rcases hsub with ⟨rfl, rfl⟩ | ⟨rfl, rfl⟩ | ⟨rfl, rfl⟩ | ⟨rfl, rfl⟩
    · have := ((topicPartsMatch_no_hash _ (Split t '/') (by decide)).mp hmatch).1
      have h5 : (Split "/devices/+/meta/name" '/').length = 5 := by decide
      rw [h5] at this
      exact ⟨this.symm, by omega⟩
    · have := ((topicPartsMatch_no_hash _ (Split t '/') (by decide)).mp hmatch).1
      have h5 : (Split "/devices/+/controls/+" '/').length = 5 := by decide
      rw [h5] at this
      exact ⟨this.symm, by omega⟩
    · have := ((topicPartsMatch_no_hash _ (Split t '/') (by decide)).mp hmatch).1
      have h7 : (Split "/devices/+/controls/+/meta/type" '/').length = 7 := by decide
      rw [h7] at this
      exact ⟨this.symm, by omega⟩
    · have := ((topicPartsMatch_no_hash _ (Split t '/') (by decide)).mp hmatch).1
      have h7 : (Split "/devices/+/controls/+/meta/max" '/').length = 7 := by decide
      rw [h7] at this
      exact ⟨this.symm, by omega⟩
  obtain ⟨hlen, h5⟩ := hlen
  have h2 : (Split t '/')[2]? = some ((Split t '/')[2]) := List.getElem?_eq_getElem (by omega)
  have h4 : (Split t '/')[4]? = some ((Split t '/')[4]) := List.getElem?_eq_getElem (by omega)
  exact ⟨hlen, ⟨_, h2⟩, ⟨_, h4⟩, fun drv env p qos retained =>
    handle_no_index_panic drv _ env ⟨t, p, qos, retained⟩ _ _ h2 h4⟩

theorem subscribed_topic_segments_witness :
    (HandlerMethod.handleExternalControlMax, "/devices/+/controls/+/meta/max") ∈
      externalSubscriptions ∧
    topicMatch "/devices/+/controls/+/meta/max" "/devices/foo/controls/bar/meta/max" = true ∧
    (Split "/devices/foo/controls/bar/meta/max" '/').length = 7 ∧
    (∃ d : String, (Split "/devices/foo/controls/bar/meta/max" '/')[2]? = some d) ∧
    (∃ c : String, (Split "/devices/foo/controls/bar/meta/max" '/')[4]? = some c) :=
  ⟨by decide, by decide,
    (subscribed_topic_segments HandlerMethod.handleExternalControlMax
      "/devices/+/controls/+/meta/max" "/devices/foo/controls/bar/meta/max" (by decide)
      (by decide)).1,
    (subscribed_topic_segments HandlerMethod.handleExternalControlMax
      "/devices/+/controls/+/meta/max" "/devices/foo/controls/bar/meta/max" (by decide)
      (by decide)).2.1,
    (subscribed_topic_segments HandlerMethod.handleExternalControlMax
      "/devices/+/controls/+/meta/max" "/devices/foo/controls/bar/meta/max" (by decide)
      (by decide)).2.2.1⟩

/-! ### The dispatch loop -/

theorem ensureExtDevice_active (drv : Driver) (d : String) :
    (drv.ensureExtDevice d).driver.active = drv.active := by
  unfold Driver.ensureExtDevice
  repeat' split
  all_goals rfl

theorem handle_active (drv : Driver) (h : HandlerMethod) (env : Env) (msg : MQTTMessage) :
    (drv.handle h env msg).driver.active = drv.active := by
  cases h
  · simp only [Driver.handle, Driver.handleIncomingMQTTOnValue]
    repeat' split
    all_goals rfl
  · simp only [Driver.handle, Driver.handleDeviceTitle]
    split
    · rfl
    · rename_i deviceName _
      have := ensureExtDevice_active drv deviceName
      cases hx : drv.ensureExtDevice deviceName <;> rw [hx] at this <;>
        simpa [Exec.driver] using this
  · simp only [Driver.handle, Driver.handleExternalControlValue]
    split
    · rfl
    · rename_i deviceName _
      split
      · rfl
      · have := ensureExtDevice_active drv deviceName
        cases hx : drv.ensureExtDevice deviceName <;> rw [hx] at this <;>
          simpa [Exec.driver] using this
  · simp only [Driver.handle, Driver.handleExternalControlType]
    split
    · rfl
    · rename_i deviceName _
      split
      · rfl
      · have := ensureExtDevice_active drv deviceName
        cases hx : drv.ensureExtDevice deviceName <;> rw [hx] at this <;>
          simpa [Exec.driver] using this
  · simp only [Driver.handle, Driver.handleExternalControlMax]
    split
    · rfl
    · rename_i deviceName _
      split
      · rfl
      · have := ensureExtDevice_active drv deviceName
        cases hx : drv.ensureExtDevice deviceName with
        | panic r d1 e1 =>
          rw [hx] at this
          simpa [Exec.driver] using this
        | done val d1 e1 =>
          rw [hx] at this
          simp only [Exec.driver] at this
          obtain ⟨dev, err⟩ := val
          cases err with
          | some e => simpa [Exec.driver] using this
          | none =>
            cases dev with
            | none => simpa [Exec.driver] using this
            | some dev =>
              simp only
              cases env.ParseFloat msg.Payload <;> simpa [Exec.driver] using this

theorem step_active (drv : Driver) (op : Op) :
    (drv.step op).driver.active = drv.active := by
  cases op with
  | OnNewDevice dev => simp [Driver.step, Exec.driver, Driver.OnNewDevice]
  | OnNewControl dev c ty v ro max => simp [Driver.step, Exec.driver, OnNewControl_driver]
  | OnValue dev c v =>
    simp only [Driver.step, Exec.driver, Driver.OnValue]
    split <;> simp
  | handle h env msg => simp [Driver.step, handle_active]

theorem run_active (ops : List Op) :
    ∀ drv : Driver, (drv.run ops).driver.active = drv.active := by
  induction ops with
  | nil => intro drv; simp [Driver.run, Exec.driver]
  | cons op ops ih =>
    intro drv
    have hs := step_active drv op
    simp only [Driver.run]
    cases hx : drv.step op with
    | panic r d e => rw [hx] at hs; simpa [Exec.driver] using hs
    | done u d e =>
      rw [hx] at hs
      simp only [Exec.driver] at hs
      have hr := ih d
      cases hy : d.run ops with
      | panic r d2 e2 => simp only [hy, Exec.driver] at hr ⊢; rw [hr, hs]
      | done u2 d2 e2 => simp only [hy, Exec.driver] at hr ⊢; rw [hr, hs]

theorem Inv_absorb (sys : System) (r : Exec Unit) (hinv : sys.Inv)
    (hact : r.driver.active = sys.drv.active) : (sys.absorb r).Inv := by
  obtain ⟨h1, h2, h3⟩ := hinv
  refine ⟨h1, h2, ?_⟩
  simp only [System.absorb, hact]
  exact h3

theorem Inv_CallSync (sys sys1 : System) (thunk : Thunk) (hinv : sys.Inv)
    (h : sys.CallSync thunk = some sys1) : sys1.Inv := by
  obtain ⟨h1, h2, h3⟩ := hinv
  unfold System.CallSync at h
  split at h
  · injection h with h
    subst h
    refine ⟨?_, h2, h3⟩
    simp only [← List.append_assoc, h1]
  · exact Option.noConfusion h

theorem Inv_invoke (sys sys1 : System) (cb : MQTTMessageHandler) (env : Env)
    (msg : MQTTMessage) (hinv : sys.Inv) (h : sys.invoke cb env msg = some sys1) :
    sys1.Inv := by
  cases cb with
  | method m =>
    simp only [System.invoke, Option.some.injEq] at h
    subst h
    exact Inv_absorb sys _ hinv (handle_active _ _ _ _)
  | callSync handler =>
    simp only [System.invoke] at h
    exact Inv_CallSync sys sys1 _ hinv h

theorem Inv_runThunk (sys sys1 : System) (f : Thunk) (hinv : sys.Inv)
    (h : sys.runThunk f = some sys1) : sys1.Inv := by
  cases f with
  | handlerCall handler env msg =>
    simp only [System.runThunk] at h
    exact Inv_invoke sys sys1 _ _ _ hinv h
  | ops ops =>
    simp only [System.runThunk, Option.some.injEq] at h
    subst h
    exact Inv_absorb sys _ hinv (run_active _ _)

theorem Inv_step (sys sys1 : System) (a : Action) (hinv : sys.Inv)
    (h : sys.step a = some sys1) : sys1.Inv := by
  unfold System.step at h
  split at h
  · exact Option.noConfusion h
  · cases a with
    | start =>
      simp only [Option.some.injEq] at h
      subst h
      obtain ⟨h1, h2, h3⟩ := hinv
      cases hact : sys.drv.active with
      | true =>
        have hs := Start_active sys.drv hact
        refine ⟨h1, ?_, ?_⟩
        · simp [hs, h2]
        · simp only [hs]
          simpa [hact] using h3
      | false =>
        have hl0 : sys.launched = 0 := by
          rcases h3 with h3 | ⟨_, h3⟩
          · exact h3
          · rw [hact] at h3; exact Bool.noConfusion h3
        cases hm : sys.drv.model.Start with
        | some err =>
          have hs := Start_model_failure sys.drv err hact hm
          refine ⟨h1, ?_, ?_⟩
          · simp [hs, h2]
          · simp [hs, hl0]
        | none =>
          by_cases htick : sys.drv.autoPoll = true ∧ sys.drv.pollDuration ≤ 0
          · have hs := Start_ticker_panic sys.drv hact hm htick
            refine ⟨h1, ?_, ?_⟩
            · simp [hs, h2]
            · simp [hs, hl0]
          · have htick' : sys.drv.autoPoll = false ∨ 0 < sys.drv.pollDuration := by
              by_cases ha : sys.drv.autoPoll = true
              · right
                have : ¬ sys.drv.pollDuration ≤ 0 := fun h => htick ⟨ha, h⟩
                omega
              · left
                simpa using ha
            obtain ⟨hl, hd, _, _⟩ := Start_launches sys.drv hact hm htick'
            refine ⟨h1, ?_, ?_⟩
            · simp only [hl, if_true]
              omega
            · simp [hl, hd, hl0]
    | stop =>
      simp only [Option.some.injEq] at h
      subst h
      exact hinv
    | callSync thunk => exact Inv_CallSync sys sys1 thunk hinv h
    | deliver cb env msg => exact Inv_invoke sys sys1 cb env msg hinv h
    | loopQuit =>
      simp only at h
      split at h
      · injection h with h
        subst h
        obtain ⟨h1, h2, h3⟩ := hinv
        exact ⟨h1, by simp only; omega, h3⟩
      · exact Option.noConfusion h
    | loopPoll =>
      simp only at h
      split at h
      · injection h with h
        subst h
        exact hinv
      · exact Option.noConfusion h
    | loopEvent =>
      simp only at h
      split at h
      · split at h
        · exact Option.noConfusion h
        · rename_i f rest hq
          refine Inv_runThunk _ sys1 f ?_ h
          obtain ⟨h1, h2, h3⟩ := hinv
          refine ⟨?_, h2, h3⟩
          simp only [List.append_assoc, List.singleton_append]
          rw [← hq]
          exact h1
      · exact Option.noConfusion h

theorem Inv_run (actions : List Action) :
    ∀ sys sys1 : System, sys.Inv → sys.run actions = some sys1 → sys1.Inv := by
  induction actions with
  | nil =>
    intro sys sys1 hinv h
    simp only [System.run, Option.some.injEq] at h
    subst h
    exact hinv
  | cons a rest ih =>
    intro sys sys1 hinv h
    simp only [System.run] at h
    cases hs : sys.step a with
    | none => rw [hs] at h; exact Option.noConfusion h
    | some sys2 =>
      rw [hs] at h
      exact ih sys2 sys1 (Inv_step sys sys2 a hinv hs) h

theorem Inv_init (drv : Driver) : (System.init drv).Inv := by
  simp [System.Inv, System.init]

theorem invoke_wrapped (sys sys1 : System) (handler : MQTTMessageHandler) (env : Env)
    (msg : MQTTMessage)
    (h : sys.invoke (MQTTMessageHandler.callSync handler) env msg = some sys1) :
    sys1.drv = sys.drv ∧ sys1.trace = sys.trace ∧ sys1.executed = sys.executed ∧
      sys1.eventCh = sys.eventCh ++ [Thunk.handlerCall handler env msg] := by
  simp only [System.invoke, System.CallSync] at h
  split at h
  · injection h with h
    subst h
    exact ⟨rfl, rfl, rfl, rfl⟩
  · exact Option.noConfusion h

theorem Start_subscribes_wrapped (drv : Driver) (cb : MQTTMessageHandler)
    (topics : List String) (h : (cb, topics) ∈ subscribes drv.Start.events) :
    ∃ m : HandlerMethod, cb = MQTTMessageHandler.callSync (MQTTMessageHandler.method m) := by
  cases hact : drv.active with
  | true => simp [Start_active drv hact, subscribes] at h
  | false =>
    cases hm : drv.model.Start with
    | some err => simp [Start_model_failure drv err hact hm, subscribes] at h
    | none =>
      by_cases htick : drv.autoPoll = true ∧ drv.pollDuration ≤ 0
      · simp [Start_ticker_panic drv hact hm htick, subscribes] at h
      · have htick' : drv.autoPoll = false ∨ 0 < drv.pollDuration := by
          by_cases ha : drv.autoPoll = true
          · right
            have : ¬ drv.pollDuration ≤ 0 := fun h => htick ⟨ha, h⟩
            omega
          · left
            simpa using ha
        rw [Start_subscribes drv hact hm htick'] at h
        split at h
        · simp only [externalSubscriptions, List.map_cons, List.map_nil, List.mem_cons,
            Prod.mk.injEq, List.mem_singleton, List.not_mem_nil, or_false] at h
          rcases h with ⟨rfl, _⟩ | ⟨rfl, _⟩ | ⟨rfl, _⟩ | ⟨rfl, _⟩ <;> exact ⟨_, rfl⟩
        · simp at h

theorem OnNewControl_subscribes_wrapped (drv : Driver) (dev : DeviceModel) (c ty v : String)
    (readOnly : Bool) (max : Float64) (cb : MQTTMessageHandler) (topics : List String)
    (h : (cb, topics) ∈ subscribes (drv.OnNewControl dev c ty v readOnly max).2) :
    ∃ m : HandlerMethod, cb = MQTTMessageHandler.callSync (MQTTMessageHandler.method m) := by
  rw [OnNewControl_events] at h
  cases readOnly <;> cases hmax : max.geZero <;> simp [subscribes, hmax] at h <;>
    exact ⟨_, h.1⟩

theorem step_not_crashed (s s1 : System) (a : Action) (h : s.step a = some s1) :
    s.crashed = false := by
  unfold System.step at h
  split at h
  · exact Option.noConfusion h
  · rename_i hc
    simpa using hc

theorem run_of_crashed (acts : List Action) (s s1 : System) (hc : s.crashed = true)
    (h : s.run acts = some s1) : s1 = s := by
  cases acts with
  | nil => simp only [System.run, Option.some.injEq] at h; exact h.symm
  | cons a rest =>
    simp only [System.run] at h
    cases hs : s.step a with
    | none => rw [hs] at h; exact Option.noConfusion h
    | some s2 =>
      have := step_not_crashed s s2 a hs
      rw [hc] at this
      exact Bool.noConfusion this

theorem CallSync_frame (s s1 : System) (thunk : Thunk) (h : s.CallSync thunk = some s1) :
    s1.executed = s.executed ∧ s1.drv = s.drv ∧ s1.trace = s.trace ∧
      s1.crashed = s.crashed := by
  unfold System.CallSync at h
  split at h
  · injection h with h
    subst h
    exact ⟨rfl, rfl, rfl, rfl⟩
  · exact Option.noConfusion h

theorem queue_step (s s1 : System) (a : Action) (hq : a.isQueue = true)
    (h : s.step a = some s1) :
    (s1.executed = s.executed ∧ s1.drv = s.drv ∧ s1.trace = s.trace ∧ s1.crashed = false) ∨
      ∃ f : Thunk, s.eventCh.head? = some f ∧ s1.executed = s.executed ++ [f] ∧
        s1.drv = (f.runOn s.drv).driver ∧
        s1.trace = s.trace ++ (f.runOn s.drv).events ∧
        s1.crashed = (f.runOn s.drv).panicked := by
  have hc := step_not_crashed s s1 a h
  unfold System.step at h
  simp only [hc, Bool.false_eq_true, if_false] at h
  cases a with
  | start => simp [Action.isQueue] at hq
  | stop => simp [Action.isQueue] at hq
  | loopQuit => simp [Action.isQueue] at hq
  | loopPoll => simp [Action.isQueue] at hq
  | callSync thunk =>
    left
    obtain ⟨h1, h2, h3, h4⟩ := CallSync_frame s s1 thunk h
    exact ⟨h1, h2, h3, by rw [h4, hc]⟩
  | deliver cb env msg =>
    cases cb with
    | method m => simp [Action.isQueue] at hq
    | callSync handler =>
      left
      simp only [System.invoke] at h
      obtain ⟨h1, h2, h3, h4⟩ := CallSync_frame s s1 _ h
      exact ⟨h1, h2, h3, by rw [h4, hc]⟩
  | loopEvent =>
    right
    simp only at h
    split at h
    · split at h
      · exact Option.noConfusion h
      · rename_i f rest hev
        refine ⟨f, by simp [hev], ?_⟩
        cases f with
        | ops ops =>
          simp only [System.runThunk, Option.some.injEq] at h
          subst h
          exact ⟨rfl, rfl, rfl, rfl⟩
        | handlerCall handler env msg =>
          cases handler with
          | method m =>
            simp only [System.runThunk, System.invoke, Option.some.injEq] at h
            subst h
            exact ⟨rfl, rfl, rfl, rfl⟩
          | callSync inner =>
            simp only [System.runThunk, System.invoke] at h
            obtain ⟨h1, h2, h3, h4⟩ := CallSync_frame _ s1 _ h
            refine ⟨h1, h2, ?_, ?_⟩
            · simpa [Thunk.runOn, Exec.events] using h3
            · simpa [Thunk.runOn, Exec.panicked, hc] using h4
    · exact Option.noConfusion h

theorem queue_run (acts : List Action) :
    ∀ s s1 : System, (∀ a ∈ acts, a.isQueue = true) → s.run acts = some s1 →
      ∃ new : List Thunk, s1.executed = s.executed ++ new ∧
        s1.drv = (s.drv.runThunks new).driver ∧
        s1.trace = s.trace ++ (s.drv.runThunks new).events ∧
        s1.crashed = (s.crashed || (s.drv.runThunks new).panicked) := by
  induction acts with
  | nil =>
    intro s s1 _ h
    simp only [System.run, Option.some.injEq] at h
    subst h
    exact ⟨[], by simp [Driver.runThunks, Exec.driver, Exec.events, Exec.panicked]⟩
  | cons a rest ih =>
    intro s s1 hq h
    simp only [System.run] at h
    cases hs : s.step a with
    | none => rw [hs] at h; exact Option.noConfusion h
    | some s2 =>
      rw [hs] at h
      have hc := step_not_crashed s s2 a hs
      have hqa : a.isQueue = true := hq a (by simp)
      have hqr : ∀ b ∈ rest, b.isQueue = true := fun b hb => hq b (by simp [hb])
      rcases queue_step s s2 a hqa hs with ⟨e1, e2, e3, e4⟩ | ⟨f, _, e1, e2, e3, e4⟩
      · obtain ⟨new, n1, n2, n3, n4⟩ := ih s2 s1 hqr h
        refine ⟨new, ?_, ?_, ?_, ?_⟩
        · rw [n1, e1]
        · rw [n2, e2]
        · rw [n3, e3, e2]
        · rw [n4, e4, e2, hc]
      · cases hf : f.runOn s.drv with
        | panic r d e =>
          rw [hf] at e2 e3 e4
          simp only [Exec.driver, Exec.events, Exec.panicked] at e2 e3 e4
          have := run_of_crashed rest s2 s1 e4 h
          subst this
          refine ⟨[f], e1, ?_, ?_, ?_⟩
          · simp [Driver.runThunks, hf, Exec.driver, e2]
          · simp [Driver.runThunks, hf, Exec.events, e3]
          · simp [Driver.runThunks, hf, Exec.panicked, e4]
        | done u d e =>
          rw [hf] at e2 e3 e4
          simp only [Exec.driver, Exec.events, Exec.panicked] at e2 e3 e4
          obtain ⟨new, n1, n2, n3, n4⟩ := ih s2 s1 hqr h
          rw [e2] at n2 n3 n4
          refine ⟨f :: new, ?_, ?_, ?_, ?_⟩
          · rw [n1, e1]; simp
          · cases hr : d.runThunks new <;>
              simp [Driver.runThunks, hf, hr, Exec.driver, n2]
          · cases hr : d.runThunks new <;>
              simp [Driver.runThunks, hf, hr, Exec.events, n3, e3, List.append_assoc]
          · cases hr : d.runThunks new <;>
              simp [Driver.runThunks, hf, hr, Exec.panicked, n4, e4, hc]

theorem step_executed (s s1 : System) (a : Action) (h : s.step a = some s1)
    (hne : a ≠ Action.loopEvent) : s1.executed = s.executed := by
  have hc := step_not_crashed s s1 a h
  unfold System.step at h
  simp only [hc, Bool.false_eq_true, if_false] at h
  cases a with
  | start => simp only [Option.some.injEq] at h; subst h; rfl
  | stop => simp only [Option.some.injEq] at h; subst h; rfl
  | loopQuit =>
    simp only at h
    split at h
    · injection h with h; subst h; rfl
    · exact Option.noConfusion h
  | loopPoll =>
    simp only at h
    split at h
    · injection h with h; subst h; rfl
    · exact Option.noConfusion h
  | callSync thunk => exact (CallSync_frame s s1 thunk h).1
  | deliver cb env msg =>
    cases cb with
    | method m =>
      simp only [System.invoke, Option.some.injEq] at h
      subst h
      rfl
    | callSync handler =>
      simp only [System.invoke] at h
      exact (CallSync_frame s s1 _ h).1
  | loopEvent => exact absurd rfl hne

/-- C18: from any state the driver with its goroutines can reach (by calls of `Start`,
`Stop` and `CallSync`, the transport calling subscribed callbacks, the dispatch loop taking
the cases of its `select`), along any further run of queue actions (`CallSync`, the
transport calling wrapped handlers, the loop taking its `eventCh` case), the thunks the loop
runs are the next ones in the order of submission, and the driver, the calls made and the
crash flag come out as those of running these thunks one after the other, each to
completion, on the driver: the thunks run so far, followed by those still waiting in
`eventCh`, are the thunks submitted, in order.  Only the loop's `eventCh` case runs a
submitted thunk, and at most one dispatch goroutine is ever launched.  A handler wrapped by
`wrapMessageHandler` only submits its body as a thunk when called (driver and calls
unchanged), and every callback the driver passes to `Subscribe`, in `Start` and in
`OnNewControl`, is wrapped. -/
theorem dispatch_in_submission_order (drv : Driver) (pre acts : List Action)
    (sys0 sys : System)
    (hpre : (System.init drv).run pre = some sys0)
    (hrun : sys0.run acts = some sys)
    (hq : ∀ a ∈ acts, a.isQueue = true) :
    sys.executed ++ sys.eventCh = sys.submitted ∧
      sys.launched ≤ 1 ∧ sys.loops ≤ 1 ∧
      (∃ new : List Thunk,
        sys.executed = sys0.executed ++ new ∧
        sys0.executed ++ new ++ sys.eventCh = sys.submitted ∧
        sys.drv = (sys0.drv.runThunks new).driver ∧
        sys.trace = sys0.trace ++ (sys0.drv.runThunks new).events ∧
        sys.crashed = (sys0.crashed || (sys0.drv.runThunks new).panicked)) ∧
      (∀ (a : Action) (s1 : System), sys.step a = some s1 → a ≠ Action.loopEvent →
        s1.executed = sys.executed) ∧
      (∀ (s s1 : System) (handler : MQTTMessageHandler) (env : Env) (msg : MQTTMessage),
        s.invoke (s.drv.wrapMessageHandler handler) env msg = some s1 →
          s1.drv = s.drv ∧ s1.trace = s.trace ∧ s1.executed = s.executed ∧
            s1.eventCh = s.eventCh ++ [Thunk.handlerCall handler env msg]) ∧
      (∀ (d : Driver) (cb : MQTTMessageHandler) (topics : List String),
        (cb, topics) ∈ subscribes d.Start.events →
          ∃ m : HandlerMethod,
            cb = MQTTMessageHandler.callSync (MQTTMessageHandler.method m)) ∧
      (∀ (d : Driver) (dev : DeviceModel) (c ty v : String) (readOnly : Bool) (max : Float64)
          (cb : MQTTMessageHandler) (topics : List String),
        (cb, topics) ∈ subscribes (d.OnNewControl dev c ty v readOnly max).2 →
          ∃ m : HandlerMethod,
            cb = MQTTMessageHandler.callSync (MQTTMessageHandler.method m)) := by
  have hinv0 := Inv_run pre _ sys0 (Inv_init drv) hpre
  obtain ⟨h1, h2, h3⟩ := Inv_run acts sys0 sys hinv0 hrun
  obtain ⟨new, n1, n2, n3, n4⟩ := queue_run acts sys0 sys hq hrun
  refine ⟨h1, ?_, ?_, ⟨new, n1, ?_, n2, n3, n4⟩, ?_, ?_, Start_subscribes_wrapped,
    OnNewControl_subscribes_wrapped⟩
  · rcases h3 with h3 | ⟨h3, _⟩ <;> omega
  · rcases h3 with h3 | ⟨h3, _⟩ <;> omega
  · rw [← n1]; exact h1
  · intro a s1 hs hne
    exact step_executed sys s1 a hs hne
  · intro s s1 handler env msg h
    exact invoke_wrapped s s1 handler env msg h

theorem dispatch_in_submission_order_witness :
    ∃ sys0 sys : System,
      (System.init (acceptingDriver extModel)).run samplePrefix = some sys0 ∧
      sys0.run sampleQueueActions = some sys ∧
      (∀ a ∈ sampleQueueActions, a.isQueue = true) ∧
      sys.executed.length = 2 ∧ sys.eventCh.length = 1 ∧ sys.submitted.length = 3 ∧
      sys0.drv.deviceMap "foo" = none ∧
      sys.drv.deviceMap "foo" = some ⟨7, "foo", "", true⟩ ∧
      sys.drv.deviceMap "therm" = some therm ∧
      sys.executed ++ sys.eventCh = sys.submitted ∧ sys.launched ≤ 1 ∧ sys.loops ≤ 1 ∧
      ∃ new : List Thunk,
        sys.executed = sys0.executed ++ new ∧
        sys0.executed ++ new ++ sys.eventCh = sys.submitted ∧
        sys.drv = (sys0.drv.runThunks new).driver ∧
        sys.trace = sys0.trace ++ (sys0.drv.runThunks new).events ∧
        sys.crashed = (sys0.crashed || (sys0.drv.runThunks new).panicked) :=
  ⟨_, _, rfl, rfl, by decide, by decide, by decide, by decide, by decide, by decide, by decide,
    (dispatch_in_submission_order (acceptingDriver extModel) samplePrefix sampleQueueActions
      _ _ rfl rfl (by decide)).1,
    (dispatch_in_submission_order (acceptingDriver extModel) samplePrefix sampleQueueActions
      _ _ rfl rfl (by decide)).2.1,
    (dispatch_in_submission_order (acceptingDriver extModel) samplePrefix sampleQueueActions
      _ _ rfl rfl (by decide)).2.2.1,
    (dispatch_in_submission_order (acceptingDriver extModel) samplePrefix sampleQueueActions
      _ _ rfl rfl (by decide)).2.2.2.1⟩

end Wbgo
